import Mathlib

/-!
# WeCom provider (`tools/auth/wecom.go`)

A shallow embedding of the WeCom (企业微信) auth provider: the application-token
cache, the authorization-URL builder, the code exchange and the profile
fetch / enrichment / department merge of `FetchAuthUser`.

Conventions of the embedding

* Go strings and byte slices are `String`.
* An `error` result is `Option String`: `none` is `nil`, `some m` an error whose
  message is `m`.  A pointer result is an `Option`.
* A Go panic is the `panic` constructor of `Res`; it keeps the state reached.
* The network, the clock, `json.Unmarshal` and the URL check of
  `http.NewRequest` are library code; they are the fields of `Env`, so every
  theorem holds for every behaviour of them.
* Instants are integers counting nanoseconds from the zero `time.Time`, and
  `Time.Add` is exact on them; durations are `int64` nanoseconds, whose
  arithmetic wraps (`wrap64`) and whose differences saturate (`sat64`).
* Every request carries the call site that built it (`Site`), so that the
  endpoints of a run can be told apart whatever the configured URLs are.
-/

namespace Wecom

/-! ## Decoded JSON values -/

/-- A `float64` as `json.Unmarshal` stores it in an `any`: `int n` is the value
`n` when the number is an integer of magnitude below `2^53` (where `float64` is
exact); `frac shown` is any other value, carried with its `%v` rendering. -/
inductive F64 where
  | int (n : Int)
  | frac (shown : String)
  deriving DecidableEq, Repr

/-- A value held in a `map[string]any` after `json.Unmarshal`.  Arrays and
objects are only passed through by the provider and are kept as their text. -/
inductive JVal where
  | null
  | bool (b : Bool)
  | num (f : F64)
  | str (s : String)
  | composite (text : String)
  deriving DecidableEq, Repr

/-- A `map[string]any`; a `nil` map is `[]`. -/
abbrev JMap := List (String × JVal)

/-- Map index `m[k]`: the `nil` interface when the key is absent. -/
def JMap.get (m : JMap) (k : String) : JVal :=
  (m.lookup k).getD JVal.null

/-- The builtin `delete(m, k)`. -/
def JMap.delete (m : JMap) (k : String) : JMap :=
  m.filter (fun kv => kv.1 != k)

/-- The type assertion `v.(string)`; `none` is the panic. -/
def asString : JVal → Option String
  | JVal.str s => some s
  | _ => none

/-- The type assertion `v.(float64)`; `none` is the panic. -/
def asFloat64 : JVal → Option F64
  | JVal.num f => some f
  | _ => none

/-! ## `%v` of a `float64` (`strconv.FormatFloat(f, 'g', -1, 64)`) -/

/-- Digits with the trailing zeros removed (the shortest digit string). -/
def stripZeros (ds : List Char) : List Char :=
  (ds.reverse.dropWhile (fun c => c == '0')).reverse

/-- The exponent of `%e`: at least two digits. -/
def expDigits (e : Nat) : String :=
  if e < 10 then "0" ++ Nat.repr e else Nat.repr e

/-- Rendering of a non-negative integer value: `%f` style while the decimal
exponent is below 6, `%e` style (`d.ddde+XX`) from `1e+06` on. -/
def fmtNatG (m : Nat) : String :=
  if m < 1000000 then Nat.repr m
  else
    let ds := (Nat.repr m).data
    let mant : String :=
      match stripZeros ds with
      | [] => "0"
      | [d] => String.mk [d]
      | d :: rest => String.mk (d :: '.' :: rest)
    mant ++ "e+" ++ expDigits (ds.length - 1)

/-- The verb `%v` applied to a `float64`. -/
def F64.fmtV : F64 → String
  | F64.int (Int.ofNat m) => fmtNatG m
  | F64.int (Int.negSucc m) => "-" ++ fmtNatG (m + 1)
  | F64.frac shown => shown

/-! ## Time -/

/-- The constant `time.Second`, in nanoseconds. -/
def second : Int := 1000000000

/-- Two's-complement wrap-around of `int64` arithmetic. -/
def wrap64 (x : Int) : Int :=
  (x + 2 ^ 63) % 2 ^ 64 - 2 ^ 63

/-- Saturation of a `time.Duration` to the `int64` range, as `Time.Sub` does. -/
def sat64 (x : Int) : Int :=
  if x < -(2 ^ 63) then -(2 ^ 63) else if x > 2 ^ 63 - 1 then 2 ^ 63 - 1 else x

/-- The call `time.Since(t)` evaluated at instant `now`. -/
def since (now t : Int) : Int :=
  sat64 (now - t)

/-! ## Data model -/

/-- Modelled from the spec: the `AuthUser` record of the auth package (the
canonical user), which is declared outside this file. Unset strings are `""`,
an unset raw map is `none`. -/
structure AuthUser where
  Id : String := ""
  Name : String := ""
  Username : String := ""
  Email : String := ""
  AvatarURL : String := ""
  RawUser : Option JMap := none
  deriving DecidableEq, Repr

/-- Modelled from the spec: the access credential `oauth2.Token`, declared in
an external package. -/
structure Token where
  AccessToken : String := ""
  TokenType : String := ""
  RefreshToken : String := ""
  deriving DecidableEq, Repr

/-- Modelled from the spec: the generic `BaseProvider` (client id and secret,
endpoints, extra configuration), declared outside this file. -/
structure BaseProvider where
  clientId : String := ""
  clientSecret : String := ""
  authURL : String := ""
  tokenURL : String := ""
  userInfoURL : String := ""
  displayName : String := ""
  pkce : Bool := true
  extra : JMap := []
  deriving DecidableEq, Repr

/-- The struct `WecomProvider`. -/
structure WecomProvider extends BaseProvider where
  AgentID : String := ""
  appToken : String := ""
  appTokenExp : Int := 0
  deriving DecidableEq, Repr

/-- The anonymous struct decoded from the token endpoint in `getAppToken`. -/
structure TokenInfo where
  Code : Int := 0
  Expire : Int := 0
  App_access_token : String := ""
  deriving DecidableEq, Repr

/-- The anonymous struct `info` decoded in `FetchAuthUser`. -/
structure ProfileInfo where
  Code : Int := 0
  Error : String := ""
  Userid : String := ""
  User_ticket : String := ""
  Openid : String := ""
  External_userid : String := ""
  deriving DecidableEq, Repr

/-! ## The environment: network, clock, JSON decoding -/

/-- The call site that builds a request (which upstream endpoint it is for). -/
inductive Site where
  | token
  | profile
  | detail
  | department
  deriving DecidableEq, Repr

/-- An `*http.Request` as far as the provider fills it in. -/
structure Request where
  site : Site
  method : String
  url : String
  body : String
  header : List (String × String)
  deriving DecidableEq, Repr

/-- What `client.Do` followed by `io.ReadAll` can do. -/
inductive HttpOutcome where
  | transportError (msg : String)
  | readError (data : String) (err : String)
  | body (b : String)
  deriving DecidableEq, Repr

/-- The library behaviour the provider runs against. `respond k r` answers the
request `r` sent as the `k`-th request; `now k` is the `k`-th clock reading;
`urlError u` is the error of `http.NewRequest` on the URL `u`, if any. The
three decoders are `json.Unmarshal` at the three target types used; the struct
decoders return the struct as left by a call whose error is ignored. -/
structure Env where
  urlError : String → Option String
  respond : Nat → Request → HttpOutcome
  now : Nat → Int
  unmarshalToken : String → TokenInfo
  unmarshalProfile : String → ProfileInfo
  unmarshalMap : String → Except String JMap

/-- Requests sent so far (oldest first) and number of clock readings taken. -/
structure World where
  sent : List Request := []
  ticks : Nat := 0
  deriving DecidableEq, Repr

/-- Provider fields and world, threaded through the methods. -/
structure St where
  p : WecomProvider
  w : World
  deriving DecidableEq, Repr

/-- Result of running Go code from a state: a normal return or a panic. -/
inductive Res (σ α : Type) where
  | ret (a : α) (s : σ)
  | panic (msg : String) (s : σ)
  deriving DecidableEq, Repr

/-- The state a run ends in. -/
def Res.state {σ α : Type} : Res σ α → σ
  | Res.ret _ s => s
  | Res.panic _ s => s

/-- A Go `(*AuthUser, error)` result pair. -/
abbrev UserResult := Option AuthUser × Option String

/-! ## The provider -/

/-- The constructor `NewWecomProvider`. -/
def NewWecomProvider : WecomProvider :=
  { pkce := false
    displayName := "企业微信"
    authURL := "https://login.work.weixin.qq.com/wwlogin/sso/login"
    tokenURL := "https://qyapi.weixin.qq.com/cgi-bin/auth/getuserinfo"
    userInfoURL := "https://qyapi.weixin.qq.com/cgi-bin/auth/getuserdetail" }

/-- The method `FetchToken` (the result pair `(*oauth2.Token, error)`); its only
other effect is a line on standard output. -/
def FetchToken (_p : WecomProvider) (code : String) : Option Token × Option String :=
  (some { AccessToken := code }, none)

/-- The call `http.NewRequest(method, url, body)`. -/
def newRequest (env : Env) (site : Site) (method url body : String) : Except String Request :=
  match env.urlError url with
  | some e => Except.error e
  | none => Except.ok { site := site, method := method, url := url, body := body, header := [] }

/-- The call `Header.Set(k, v)`. -/
def setHeader (h : List (String × String)) (k v : String) : List (String × String) :=
  (h.filter (fun kv => kv.1 != k)) ++ [(k, v)]

/-- Line 127 of `httpRequest`: the request with its content type set, as it is
sent. -/
def sentForm (r : Request) : Request :=
  { r with header := setHeader r.header "Content-Type" "application/json" }

/-- The function `httpRequest`. A `nil` request faults on `req.Header`; a
transport error panics; otherwise the body (or the read error) is returned. -/
def httpRequest (env : Env) (req : Option Request) (w : World) :
    Res World (String × Option String) :=
  match req with
  | none => Res.panic "invalid memory address or nil pointer dereference" w
  | some r =>
    let r1 : Request := sentForm r
    let w1 : World := { w with sent := w.sent ++ [r1] }
    match env.respond w.sent.length r1 with
    | HttpOutcome.transportError msg => Res.panic msg w1
    | HttpOutcome.readError data e => Res.ret (data, some e) w1
    | HttpOutcome.body b => Res.ret (b, none) w1

/-- The URL of the token endpoint built in `getAppToken`. -/
def appTokenURL (p : WecomProvider) : String :=
  "https://qyapi.weixin.qq.com/cgi-bin/gettoken?corpid=" ++ p.clientId ++
    "&corpsecret=" ++ p.clientSecret

/-- Line 153 of `getAppToken`: the cache test. The clock is read by
`time.Since` only when a token is cached (short-circuit `&&`). Returns the
verdict and the world after the reading. -/
def cacheFresh (env : Env) (p : WecomProvider) (w : World) : Bool × World :=
  if p.appToken ≠ "" then
    (decide (since (env.now w.ticks) p.appTokenExp < -10 * second),
      { w with ticks := w.ticks + 1 })
  else (false, w)

/-- Lines 157-185 of `getAppToken`: request a new token and store it with its
expiry. -/
def refreshAppToken (env : Env) (p : WecomProvider) (w : World) :
    Res St (String × Option String) :=
  match newRequest env Site.token "GET" (appTokenURL p) "" with
  | Except.error e => Res.ret ("", some e) { p := p, w := w }
  | Except.ok req =>
    match httpRequest env (some req) w with
    | Res.panic m w2 => Res.panic m { p := p, w := w2 }
    | Res.ret (body, err) w2 =>
      if err.isSome then Res.ret ("", err) { p := p, w := w2 }
      else
        let tokenInfo := env.unmarshalToken body
        if tokenInfo.Code ≠ 0 then Res.ret ("", some body) { p := p, w := w2 }
        else
          let p3 : WecomProvider :=
            { p with
              appToken := tokenInfo.App_access_token
              appTokenExp := env.now w2.ticks + wrap64 (tokenInfo.Expire * second) }
          Res.ret (p3.appToken, none) { p := p3, w := { w2 with ticks := w2.ticks + 1 } }

/-- The method `getAppToken`. -/
def getAppToken (env : Env) (p : WecomProvider) (w : World) :
    Res St (String × Option String) :=
  if (cacheFresh env p w).1 then
    Res.ret (p.appToken, none) { p := p, w := (cacheFresh env p w).2 }
  else refreshAppToken env p (cacheFresh env p w).2

/-- Lines 54-56 of `FetchRawUserInfo`: the profile request (`nil` when
`http.NewRequest` refuses the URL, its error being dropped). -/
def profileRequest (env : Env) (p : WecomProvider) (appToken : String) (tk : Token) :
    Option Request :=
  (newRequest env Site.profile "GET"
    (p.tokenURL ++ "?access_token=" ++ appToken ++ "&code=" ++ tk.AccessToken) "").toOption

/-- The method `FetchRawUserInfo`. -/
def FetchRawUserInfo (env : Env) (p : WecomProvider) (token : Option Token) (w : World) :
    Res St (String × Option String) :=
  match getAppToken env p w with
  | Res.panic m s => Res.panic m s
  | Res.ret (appToken, err) s =>
    if err.isSome then Res.ret ("", err) s
    else
      match token with
      | none => Res.panic "invalid memory address or nil pointer dereference" s
      | some tk =>
        match httpRequest env (profileRequest env s.p appToken tk) s.w with
        | Res.panic m w2 => Res.panic m { s with w := w2 }
        | Res.ret r w2 => Res.ret r { s with w := w2 }

/-- Lines 222-241 of `getUserInfo`: the user built from the decoded detail
response. `Except.error` is the panic of a failed type assertion,
`Except.ok` the returned pair. -/
def userFromDetail (ret : JMap) : Except String UserResult :=
  if ret.get "errmsg" ≠ JVal.str "ok" then
    match asString (ret.get "errmsg") with
    | none => Except.error "interface conversion: errmsg is not string"
    | some m => Except.ok (none, some m)
  else
    let ret1 := (ret.delete "errcode").delete "errmsg"
    match asString (ret1.get "userid") with
    | none => Except.error "interface conversion: userid is not string"
    | some userid =>
      match asString (ret1.get "avatar") with
      | none => Except.error "interface conversion: avatar is not string"
      | some avatar =>
        let user : AuthUser := { Username := userid, AvatarURL := avatar }
        match asString (ret1.get "email") with
        | none => Except.error "interface conversion: email is not string"
        | some email =>
          if email ≠ "" then
            Except.ok (some { user with Email := email, RawUser := some ret1 }, none)
          else
            match asString (ret1.get "biz_mail") with
            | none => Except.error "interface conversion: biz_mail is not string"
            | some biz =>
              let user1 : AuthUser := if biz ≠ "" then { user with Email := biz } else user
              Except.ok (some { user1 with RawUser := some (ret1.delete "email") }, none)

/-- The request body built in `getUserInfo`. -/
def ticketBody (ticket : String) : String :=
  "\x7b\"user_ticket\":\"" ++ ticket ++ "\"\x7d"

/-- Lines 194-196 of `getUserInfo`: the user-detail request (`nil` when
`http.NewRequest` refuses the URL, its error being dropped). -/
def detailRequest (env : Env) (p : WecomProvider) (appToken ticket : String) :
    Option Request :=
  (newRequest env Site.detail "POST" (p.userInfoURL ++ "?access_token=" ++ appToken)
    (ticketBody ticket)).toOption

/-- The method `getUserInfo`. -/
def getUserInfo (env : Env) (p : WecomProvider) (ticket : String) (w : World) :
    Res St UserResult :=
  match getAppToken env p w with
  | Res.panic m s => Res.panic m s
  | Res.ret (appToken, err) s =>
    if err.isSome then Res.ret (none, err) s
    else
      match httpRequest env (detailRequest env s.p appToken ticket) s.w with
      | Res.panic m w2 => Res.panic m { s with w := w2 }
      | Res.ret (body, err) w2 =>
        let s2 : St := { s with w := w2 }
        if err.isSome then Res.ret (none, err) s2
        else
          match env.unmarshalMap body with
          | Except.error e => Res.ret (none, some e) s2
          | Except.ok ret =>
            match userFromDetail ret with
            | Except.error m => Res.panic m s2
            | Except.ok r => Res.ret r s2

/-- Lines 111-113 of `FetchAuthUser`: copy the department name. -/
def setName (ret : JMap) (user : Option AuthUser) : Except String (Option AuthUser) :=
  if ret.get "name" ≠ JVal.str "" then
    match asString (ret.get "name") with
    | none => Except.error "interface conversion: name is not string"
    | some nm =>
      match user with
      | none => Except.error "invalid memory address or nil pointer dereference"
      | some u => Except.ok (some { u with Name := nm })
  else Except.ok user

/-- Lines 115-122 of `FetchAuthUser`: the id from openid, else from username. -/
def setId (info : ProfileInfo) (user : Option AuthUser) : Except String (Option AuthUser) :=
  match user with
  | none => Except.error "invalid memory address or nil pointer dereference"
  | some u =>
    let u1 : AuthUser := if info.Openid ≠ "" then { u with Id := info.Openid } else u
    let u2 : AuthUser := if u1.Id = "" then { u1 with Id := u1.Username } else u1
    Except.ok (some u2)

/-- The URL of the department lookup built in `FetchAuthUser`. -/
def departmentURL (p : WecomProvider) (info : ProfileInfo) : String :=
  "https://qyapi.weixin.qq.com/cgi-bin/user/get?access_token=" ++ p.appToken ++
    "&userid=" ++ info.Userid

/-- Lines 93-94 of `FetchAuthUser`: the department request (`nil` when
`http.NewRequest` refuses the URL, its error being dropped). -/
def departmentRequest (env : Env) (p : WecomProvider) (info : ProfileInfo) : Option Request :=
  (newRequest env Site.department "GET" (departmentURL p info) "").toOption

/-- Lines 93-123 of `FetchAuthUser`: department lookup, status gate and merge.
The pair returned at line 123 is `(user, err)` with `err` as assigned at line 96. -/
def mergeDepartment (env : Env) (info : ProfileInfo) (user : Option AuthUser)
    (s : St) : Res St UserResult :=
  match httpRequest env (departmentRequest env s.p info) s.w with
  | Res.panic m w1 => Res.panic m { s with w := w1 }
  | Res.ret (body, err) w1 =>
    let s1 : St := { s with w := w1 }
    if err.isSome then Res.ret (none, err) s1
    else
      match env.unmarshalMap body with
      | Except.error e => Res.ret (none, some e) s1
      | Except.ok ret =>
        if ret.get "errmsg" ≠ JVal.str "ok" then
          match asString (ret.get "errmsg") with
          | none => Res.panic "interface conversion: errmsg is not string" s1
          | some m => Res.ret (none, some m) s1
        else
          match asFloat64 (ret.get "status") with
          | none => Res.panic "interface conversion: status is not float64" s1
          | some st =>
            if st ≠ F64.int 1 then
              Res.ret (none, some ("user status=" ++ st.fmtV ++ ", no access")) s1
            else
              match setName ret user with
              | Except.error m => Res.panic m s1
              | Except.ok user1 =>
                match setId info user1 with
                | Except.error m => Res.panic m s1
                | Except.ok user2 => Res.ret (user2, err) s1

/-- The method `FetchAuthUser`. -/
def FetchAuthUser (env : Env) (p : WecomProvider) (token : Option Token) (w : World) :
    Res St UserResult :=
  match FetchRawUserInfo env p token w with
  | Res.panic m s => Res.panic m s
  | Res.ret (body, err) s =>
    if err.isSome then Res.ret (none, err) s
    else
      let info := env.unmarshalProfile body
      if info.Code ≠ 0 ∨ info.Error ≠ "ok" then Res.ret (none, some info.Error) s
      else if info.User_ticket ≠ "" then
        match getUserInfo env s.p info.User_ticket s.w with
        | Res.panic m s2 => Res.panic m s2
        | Res.ret (user, err) s2 =>
          if err.isSome then Res.ret (none, err) s2
          else mergeDepartment env info user s2
      else
        mergeDepartment env info (some { Username := info.Userid }) s

/-- The method `BuildAuthURL`; `Except.error` is the panic of `agentId.(string)`. -/
def BuildAuthURL (p : WecomProvider) (state : String) : Except String String :=
  let url := p.authURL ++ "?response_type=code" ++
    "&appid=" ++ p.clientId ++
    "&state=" ++ state ++
    "&login_type=CorpApp"
  match p.extra.lookup "AgentID" with
  | some agentId =>
    match asString agentId with
    | none => Except.error "interface conversion: AgentID is not string"
    | some a => Except.ok (url ++ "&scope=snsapi_privateinfo&agentid=" ++ a)
  | none => Except.ok (url ++ "&scope=snsapi_base")

/-- Lines 81-91 of `FetchAuthUser` taken as one step: the user seeded from the
detail call when a ticket is present, from the user id alone otherwise. -/
def seedUser (env : Env) (info : ProfileInfo) (s : St) : Res St UserResult :=
  if info.User_ticket ≠ "" then getUserInfo env s.p info.User_ticket s.w
  else Res.ret (some { Username := info.Userid }, none) s

/-! ## Vocabulary of the properties -/

/-- The request `getAppToken` sends to the token endpoint. -/
def tokenRequest (p : WecomProvider) : Request :=
  sentForm { site := Site.token, method := "GET", url := appTokenURL p, body := "", header := [] }

/-- The requests sent between two worlds of one run. -/
def added (before after : World) : List Request :=
  after.sent.drop before.sent.length

/-- Number of requests to one endpoint among a list of requests. -/
def countSite (site : Site) (l : List Request) : Nat :=
  l.countP (fun r => decide (r.site = site))

/-- Decimal rendering of an integer. -/
def decimal (n : Int) : String :=
  match n with
  | Int.ofNat m => Nat.repr m
  | Int.negSucc m => "-" ++ Nat.repr (m + 1)

/-- The text `part` occurs in `msg`. -/
def containsText (msg part : String) : Prop :=
  part.data <:+: msg.data

instance (msg part : String) : Decidable (containsText msg part) := by
  unfold containsText
  infer_instance

/-- The email-selection rule of the spec: the personal email when non-empty,
else the business email when non-empty, else unset (`""`). -/
def selectEmail (personal business : String) : String :=
  if personal ≠ "" then personal else if business ≠ "" then business else ""

/-- The raw query of a URL: what follows the first `?` in the part before the
first `#`. -/
def rawQuery (u : List Char) : List Char :=
  ((u.takeWhile (fun c => c != '#')).dropWhile (fun c => c != '?')).drop 1

/-- The `&`-separated segments of a query. -/
def splitAmp : List Char → List (List Char)
  | [] => [[]]
  | c :: cs =>
    if c = '&' then [] :: splitAmp cs
    else
      match splitAmp cs with
      | [] => [[c]]
      | seg :: segs => (c :: seg) :: segs

/-- The key of a query segment: the text before its first `=`. -/
def segKey (seg : List Char) : List Char :=
  seg.takeWhile (fun c => c != '=')

/-- The value of a query segment: the text after its first `=`. -/
def segValue (seg : List Char) : List Char :=
  (seg.dropWhile (fun c => c != '=')).drop 1

/-- The values a URL gives to the query parameter `k`, in order of appearance
(before percent-decoding). -/
def queryValues (u k : String) : List String :=
  ((splitAmp (rawQuery u.data)).filter (fun seg => segKey seg == k.data)).map
    (fun seg => String.mk (segValue seg))

/-- A state value free of the query delimiters `&` and `#`. -/
def plainState (s : String) : Prop :=
  ∀ c ∈ s.data, c ≠ '&' ∧ c ≠ '#'

/-! ## Concrete environments -/

/-- A URL check that, like `net/url`, refuses a control byte before the
fragment. -/
def rejectControl (u : String) : Option String :=
  if (u.data.takeWhile (fun c => c != '#')).any (fun c => c.val < 32 || c.val == 127) then
    some "net/url: invalid control character in URL"
  else none

/-- An environment given by tables: decoders look the body up; a body outside
the tables decodes like invalid JSON (zero struct, error for a map). -/
def tableEnv (answer : Nat → Request → HttpOutcome) (clock : Nat → Int)
    (tokens : List (String × TokenInfo)) (profiles : List (String × ProfileInfo))
    (maps : List (String × JMap)) : Env :=
  { urlError := rejectControl
    respond := answer
    now := clock
    unmarshalToken := fun b => (tokens.lookup b).getD {}
    unmarshalProfile := fun b => (profiles.lookup b).getD {}
    unmarshalMap := fun b =>
      match maps.lookup b with
      | some m => Except.ok m
      | none => Except.error "unexpected end of JSON input" }

/-- Answers chosen by endpoint alone. -/
def bySite (tok prof det dep : String) : Nat → Request → HttpOutcome :=
  fun _ r =>
    match r.site with
    | Site.token => HttpOutcome.body tok
    | Site.profile => HttpOutcome.body prof
    | Site.detail => HttpOutcome.body det
    | Site.department => HttpOutcome.body dep

/-- A clock that starts at 1000 s and advances one second per reading. -/
def demoClock (k : Nat) : Int :=
  (1000 + (k : Int)) * second

/-- A configured provider. -/
def demoProvider : WecomProvider :=
  { NewWecomProvider with clientId := "corp", clientSecret := "sec" }

/-- The credential produced by `FetchToken` for the code `CODE`. -/
def demoToken : Option Token :=
  some { AccessToken := "CODE" }

/-- A successful token response. -/
def tokenBody : String :=
  "\x7b\"errcode\":0,\"access_token\":\"TOK\",\"expires_in\":7200\x7d"

/-- The decoded form of `tokenBody`. -/
def tokenTable : List (String × TokenInfo) :=
  [(tokenBody, { Code := 0, Expire := 7200, App_access_token := "TOK" })]

/-- The raw profile of the end-to-end scenario. -/
def rawBody : String :=
  "\x7b\"errcode\":0,\"errmsg\":\"ok\",\"userid\":\"lisi\",\"user_ticket\":\"T1\",\"openid\":\"\"\x7d"

/-- The decoded form of `rawBody`. -/
def rawInfo : ProfileInfo :=
  { Code := 0, Error := "ok", Userid := "lisi", User_ticket := "T1", Openid := "" }

/-- The detail response of the end-to-end scenario. -/
def detailBody : String :=
  "\x7b\"errmsg\":\"ok\",\"userid\":\"lisi\",\"avatar\":\"http://x/0\",\"email\":\"\",\"biz_mail\":\"zs@corp.com\"\x7d"

/-- The decoded form of `detailBody`. -/
def detailMap : JMap :=
  [("errmsg", JVal.str "ok"), ("userid", JVal.str "lisi"), ("avatar", JVal.str "http://x/0"),
    ("email", JVal.str ""), ("biz_mail", JVal.str "zs@corp.com")]

/-- The department response of the end-to-end scenario. -/
def deptBody : String :=
  "\x7b\"errmsg\":\"ok\",\"name\":\"张三\",\"status\":1\x7d"

/-- The decoded form of `deptBody`. -/
def deptMap : JMap :=
  [("errmsg", JVal.str "ok"), ("name", JVal.str "张三"), ("status", JVal.num (F64.int 1))]

/-- The end-to-end scenario of the spec. -/
def scenarioEnv : Env :=
  tableEnv (bySite tokenBody rawBody detailBody deptBody) demoClock tokenTable
    [(rawBody, rawInfo)] [(detailBody, detailMap), (deptBody, deptMap)]

/-- A raw profile that the provider rejects. -/
def rejectedBody : String :=
  "\x7b\"errcode\":1,\"errmsg\":\"invalid code\"\x7d"

/-- An environment whose profile endpoint rejects the code. -/
def rejectedEnv : Env :=
  tableEnv (bySite tokenBody rejectedBody detailBody deptBody) demoClock tokenTable
    [(rejectedBody, { Code := 1, Error := "invalid code" })]
    [(detailBody, detailMap), (deptBody, deptMap)]

/-- A detail response with user id and avatar but neither email field. -/
def noEmailBody : String :=
  "\x7b\"errcode\":0,\"errmsg\":\"ok\",\"userid\":\"lisi\",\"avatar\":\"http://x/0\"\x7d"

/-- The decoded form of `noEmailBody`. -/
def noEmailMap : JMap :=
  [("errcode", JVal.num (F64.int 0)), ("errmsg", JVal.str "ok"), ("userid", JVal.str "lisi"),
    ("avatar", JVal.str "http://x/0")]

/-- The scenario with a detail response that omits both email fields. -/
def noEmailEnv : Env :=
  tableEnv (bySite tokenBody rawBody noEmailBody deptBody) demoClock tokenTable
    [(rawBody, rawInfo)] [(noEmailBody, noEmailMap), (deptBody, deptMap)]

/-- The user `getUserInfo` builds in the end-to-end scenario. -/
def scenarioSeed : AuthUser :=
  { Username := "lisi", AvatarURL := "http://x/0", Email := "zs@corp.com",
    RawUser := some [("userid", JVal.str "lisi"), ("avatar", JVal.str "http://x/0"),
      ("biz_mail", JVal.str "zs@corp.com")] }

/-- A department response with status 2. -/
def statusTwoBody : String :=
  "\x7b\"errmsg\":\"ok\",\"name\":\"张三\",\"status\":2\x7d"

/-- The decoded form of `statusTwoBody`. -/
def statusTwoMap : JMap :=
  [("errmsg", JVal.str "ok"), ("name", JVal.str "张三"), ("status", JVal.num (F64.int 2))]

/-- The scenario with the department lookup answering status 2. -/
def statusTwoEnv : Env :=
  tableEnv (bySite tokenBody rawBody detailBody statusTwoBody) demoClock tokenTable
    [(rawBody, rawInfo)] [(detailBody, detailMap), (statusTwoBody, statusTwoMap)]

/-- A department response with status 1000000. -/
def bigStatusBody : String :=
  "\x7b\"errmsg\":\"ok\",\"name\":\"张三\",\"status\":1000000\x7d"

/-- The decoded form of `bigStatusBody`. -/
def bigStatusMap : JMap :=
  [("errmsg", JVal.str "ok"), ("name", JVal.str "张三"), ("status", JVal.num (F64.int 1000000))]

/-- The scenario with the department lookup answering status 1000000. -/
def bigStatusEnv : Env :=
  tableEnv (bySite tokenBody rawBody detailBody bigStatusBody) demoClock tokenTable
    [(rawBody, rawInfo)] [(detailBody, detailMap), (bigStatusBody, bigStatusMap)]

/-- The email the selection rule picks from a detail response; an absent field
counts as empty. -/
def detailEmail (det : JMap) : String :=
  selectEmail ((asString (det.get "email")).getD "") ((asString (det.get "biz_mail")).getD "")

/-- The canonical user of the end-to-end scenario. -/
def scenarioUser : AuthUser :=
  { Id := "lisi", Username := "lisi", Name := "张三", Email := "zs@corp.com",
    AvatarURL := "http://x/0",
    RawUser := some [("userid", JVal.str "lisi"), ("avatar", JVal.str "http://x/0"),
      ("biz_mail", JVal.str "zs@corp.com")] }

/-- A token response that reports an upstream error. -/
def tokenErrorBody : String :=
  "\x7b\"errcode\":40001,\"errmsg\":\"invalid credential\"\x7d"

/-- A provider holding a cached token that expires at 1011 s. -/
def staleProvider : WecomProvider :=
  { demoProvider with appToken := "OLD", appTokenExp := 1011 * second }

/-- The scenario with a token endpoint that refuses to issue a new token. -/
def staleEnv : Env :=
  tableEnv (bySite tokenErrorBody rawBody detailBody deptBody) demoClock
    [(tokenErrorBody, { Code := 40001 })]
    [(rawBody, rawInfo)] [(detailBody, detailMap), (deptBody, deptMap)]

/-- A raw profile without ticket. -/
def plainBody : String :=
  "\x7b\"errcode\":0,\"errmsg\":\"ok\",\"userid\":\"lisi\",\"openid\":\"oid\"\x7d"

/-- The decoded form of `plainBody`. -/
def plainInfo : ProfileInfo :=
  { Code := 0, Error := "ok", Userid := "lisi", Openid := "oid" }

/-- The scenario with a raw profile that carries no ticket. -/
def plainEnv : Env :=
  tableEnv (bySite tokenBody plainBody detailBody deptBody) demoClock tokenTable
    [(plainBody, plainInfo)] [(detailBody, detailMap), (deptBody, deptMap)]

/-- The provider after a refresh that stored the token `v` with expiry `exp`. -/
def storedProvider (p : WecomProvider) (v : String) (exp : Int) : WecomProvider :=
  { p with appToken := v, appTokenExp := exp }

/-- The instant of a refresh started in world `w`: the clock reading taken when
the new token is stored (the first reading after the cache test). -/
def refreshInstant (env : Env) (p : WecomProvider) (w : World) : Int :=
  env.now (cacheFresh env p w).2.ticks

/-- A provider whose client id holds a line feed. -/
def badIdProvider : WecomProvider :=
  { demoProvider with clientId := "co\nrp" }

instance (s : String) : Decidable (plainState s) := by
  unfold plainState
  infer_instance

/-- A department response with errmsg "ok" and status 1 but no name. -/
def noNameBody : String :=
  "\x7b\"errcode\":0,\"errmsg\":\"ok\",\"status\":1\x7d"

/-- The decoded form of `noNameBody`. -/
def noNameMap : JMap :=
  [("errcode", JVal.num (F64.int 0)), ("errmsg", JVal.str "ok"), ("status", JVal.num (F64.int 1))]

/-- The end-to-end scenario with a department response that omits the name. -/
def noNameEnv : Env :=
  tableEnv (bySite tokenBody rawBody detailBody noNameBody) demoClock tokenTable
    [(rawBody, rawInfo)] [(detailBody, detailMap), (noNameBody, noNameMap)]

/-! # Theorems -/

/-! ## Requests sent by each operation -/

theorem httpRequest_sent (env : Env) (req : Option Request) (w : World) :
    (httpRequest env req w).state.sent = w.sent ++ (req.map sentForm).toList := by
  unfold httpRequest
  cases req with
  | none => simp [Res.state]
  | some r =>
    simp only [Option.map_some', Option.toList_some]
    split <;> simp [Res.state, sentForm]

theorem httpRequest_ret_sent (env : Env) (req : Option Request) (w w2 : World)
    (r : String × Option String) (h : httpRequest env req w = Res.ret r w2) :
    w2.sent = w.sent ++ (req.map sentForm).toList := by
  have := httpRequest_sent env req w
  rw [h] at this
  exact this

theorem httpRequest_panic_sent (env : Env) (req : Option Request) (w w2 : World)
    (m : String) (h : httpRequest env req w = Res.panic m w2) :
    w2.sent = w.sent ++ (req.map sentForm).toList := by
  have := httpRequest_sent env req w
  rw [h] at this
  exact this

theorem newRequest_site (env : Env) (site : Site) (m u b : String) (r : Request)
    (h : (newRequest env site m u b).toOption = some r) : r.site = site := by
  unfold newRequest at h
  split at h
  · simp [Except.toOption] at h
  · simp [Except.toOption] at h
    rw [← h]

theorem newRequest_sites (env : Env) (site : Site) (m u b : String) :
    ∀ r ∈ ((newRequest env site m u b).toOption.map sentForm).toList, r.site = site := by
  intro r hr
  cases h : (newRequest env site m u b).toOption with
  | none => simp [h] at hr
  | some r0 =>
    simp [h] at hr
    subst hr
    simpa [sentForm] using newRequest_site env site m u b r0 h

theorem newRequest_length (env : Env) (site : Site) (m u b : String) :
    ((newRequest env site m u b).toOption.map sentForm).toList.length ≤ 1 := by
  cases (newRequest env site m u b).toOption <;> simp

theorem profileRequest_sites (env : Env) (p : WecomProvider) (a : String) (tk : Token) :
    ∀ r ∈ ((profileRequest env p a tk).map sentForm).toList, r.site = Site.profile :=
  newRequest_sites env Site.profile _ _ _

theorem detailRequest_sites (env : Env) (p : WecomProvider) (a t : String) :
    ∀ r ∈ ((detailRequest env p a t).map sentForm).toList, r.site = Site.detail :=
  newRequest_sites env Site.detail _ _ _

theorem departmentRequest_sites (env : Env) (p : WecomProvider) (info : ProfileInfo) :
    ∀ r ∈ ((departmentRequest env p info).map sentForm).toList, r.site = Site.department :=
  newRequest_sites env Site.department _ _ _

theorem cacheFresh_sent (env : Env) (p : WecomProvider) (w : World) :
    (cacheFresh env p w).2.sent = w.sent := by
  unfold cacheFresh
  split <;> rfl

theorem refreshAppToken_sent (env : Env) (p : WecomProvider) (w : World) :
    ∃ l, (refreshAppToken env p w).state.w.sent = w.sent ++ l ∧ l.length ≤ 1 ∧
      ∀ r ∈ l, r.site = Site.token := by
  unfold refreshAppToken
  split
  · exact ⟨[], by simp [Res.state]⟩
  · rename_i req hreq
    have hsite : req.site = Site.token := by
      unfold newRequest at hreq
      split at hreq
      · simp at hreq
      · simp at hreq
        rw [← hreq]
    refine ⟨[sentForm req], ?_, by simp, by simpa [sentForm] using hsite⟩
    split
    · rename_i h
      simpa [Res.state] using httpRequest_panic_sent _ _ _ _ _ h
    · rename_i h
      have := httpRequest_ret_sent _ _ _ _ _ h
      split
      · simpa [Res.state] using this
      · simp only
        split <;> simpa [Res.state] using this

theorem getAppToken_sent (env : Env) (p : WecomProvider) (w : World) :
    ∃ l, (getAppToken env p w).state.w.sent = w.sent ++ l ∧ l.length ≤ 1 ∧
      ∀ r ∈ l, r.site = Site.token := by
  unfold getAppToken
  split
  · exact ⟨[], by simp [Res.state, cacheFresh_sent]⟩
  · have := refreshAppToken_sent env p (cacheFresh env p w).2
    rw [cacheFresh_sent] at this
    exact this

theorem FetchRawUserInfo_sent (env : Env) (p : WecomProvider) (token : Option Token) (w : World) :
    ∃ l, (FetchRawUserInfo env p token w).state.w.sent = w.sent ++ l ∧
      ∀ r ∈ l, r.site = Site.token ∨ r.site = Site.profile := by
  obtain ⟨l, hl, -, hs⟩ := getAppToken_sent env p w
  unfold FetchRawUserInfo
  split
  · rename_i h
    rw [h] at hl
    exact ⟨l, by simpa [Res.state] using hl, fun r hr => Or.inl (hs r hr)⟩
  · rename_i h
    rw [h] at hl
    simp only [Res.state] at hl
    split
    · exact ⟨l, by simpa [Res.state] using hl, fun r hr => Or.inl (hs r hr)⟩
    · split
      · exact ⟨l, by simpa [Res.state] using hl, fun r hr => Or.inl (hs r hr)⟩
      · rename_i tk
        split
        · rename_i h2
          have := httpRequest_panic_sent _ _ _ _ _ h2
          refine ⟨l ++ _, by simp only [Res.state]; rw [this, hl, List.append_assoc], ?_⟩
          intro r hr
          rcases List.mem_append.mp hr with hr | hr
          · exact Or.inl (hs r hr)
          · exact Or.inr (profileRequest_sites _ _ _ _ r hr)
        · rename_i h2
          have := httpRequest_ret_sent _ _ _ _ _ h2
          refine ⟨l ++ _, by simp only [Res.state]; rw [this, hl, List.append_assoc], ?_⟩
          intro r hr
          rcases List.mem_append.mp hr with hr | hr
          · exact Or.inl (hs r hr)
          · exact Or.inr (profileRequest_sites _ _ _ _ r hr)

/-- C1: whenever the raw profile response decodes to an errcode other than 0 or
an errmsg other than "ok", `FetchAuthUser` returns no user and an error whose
message is exactly that errmsg, in the state `FetchRawUserInfo` left, so that
every request of the run went to the token or the profile endpoint: neither the
user-detail endpoint nor the department lookup is requested. -/
theorem FetchAuthUser_upstream_rejected (env : Env) (p : WecomProvider) (token : Option Token)
    (w : World) (body : String) (s : St)
    (hraw : FetchRawUserInfo env p token w = Res.ret (body, none) s)
    (hrej : (env.unmarshalProfile body).Code ≠ 0 ∨ (env.unmarshalProfile body).Error ≠ "ok") :
    FetchAuthUser env p token w = Res.ret (none, some (env.unmarshalProfile body).Error) s ∧
    ∃ l, (FetchAuthUser env p token w).state.w.sent = w.sent ++ l ∧
      ∀ r ∈ l, r.site ≠ Site.detail ∧ r.site ≠ Site.department := by
  have hrun : FetchAuthUser env p token w =
      Res.ret (none, some (env.unmarshalProfile body).Error) s := by
    unfold FetchAuthUser
    rw [hraw]
    simp [hrej]
  refine ⟨hrun, ?_⟩
  obtain ⟨l, hl, hs⟩ := FetchRawUserInfo_sent env p token w
  rw [hraw] at hl
  refine ⟨l, by rw [hrun]; exact hl, ?_⟩
  intro r hr
  rcases hs r hr with h | h <;> simp [h]

/-- C1 on the rejection scenario of the spec: errcode 1 with errmsg "invalid code"
yields the error "invalid code". -/
theorem FetchAuthUser_upstream_rejected_witness :
    (rejectedEnv.unmarshalProfile rejectedBody).Code ≠ 0 ∧
    FetchAuthUser rejectedEnv demoProvider demoToken {} =
      Res.ret (none, some "invalid code")
        (FetchRawUserInfo rejectedEnv demoProvider demoToken {}).state ∧
    ∃ l, (FetchAuthUser rejectedEnv demoProvider demoToken {}).state.w.sent = [] ++ l ∧
      ∀ r ∈ l, r.site ≠ Site.detail ∧ r.site ≠ Site.department :=
  ⟨by decide,
    FetchAuthUser_upstream_rejected rejectedEnv demoProvider demoToken {} rejectedBody _
      (by decide) (Or.inl (by decide))⟩

/-! ## Shape of the result pairs -/

theorem ne_none_of_isSome {α : Type} {o : Option α} (h : o.isSome = true) : o ≠ none := by
  intro h1; simp [h1] at h

theorem eq_none_of_not_isSome {α : Type} {o : Option α} (h : ¬ o.isSome = true) : o = none := by
  cases o <;> simp_all

theorem userFromDetail_shape (ret : JMap) (u : Option AuthUser) (e : Option String)
    (h : userFromDetail ret = Except.ok (u, e)) :
    (u = none ∧ e ≠ none) ∨ (u ≠ none ∧ e = none) := by
  unfold userFromDetail at h
  split at h
  · split at h <;> simp at h
    obtain ⟨rfl, rfl⟩ := h
    simp
  · simp only at h
    repeat' split at h
    all_goals simp at h
    all_goals (obtain ⟨rfl, rfl⟩ := h; simp)

theorem getUserInfo_shape (env : Env) (p : WecomProvider) (ticket : String) (w : World)
    (u : Option AuthUser) (e : Option String) (s : St)
    (h : getUserInfo env p ticket w = Res.ret (u, e) s) :
    (u = none ∧ e ≠ none) ∨ (u ≠ none ∧ e = none) := by
  unfold getUserInfo at h
  split at h
  · simp at h
  · split at h
    · rename_i h1
      simp at h; obtain ⟨⟨rfl, rfl⟩, -⟩ := h
      exact Or.inl ⟨rfl, ne_none_of_isSome h1⟩
    · simp only at h
      split at h
      · simp at h
      · split at h
        · rename_i h1
          simp at h; obtain ⟨⟨rfl, rfl⟩, -⟩ := h
          exact Or.inl ⟨rfl, ne_none_of_isSome h1⟩
        · split at h
          · simp at h; obtain ⟨⟨rfl, rfl⟩, -⟩ := h
            simp
          · split at h
            · simp at h
            · rename_i r hr
              simp at h
              obtain ⟨rfl, -⟩ := h
              exact userFromDetail_shape _ _ _ hr

theorem setId_some (info : ProfileInfo) (user r : Option AuthUser)
    (h : setId info user = Except.ok r) : r ≠ none := by
  unfold setId at h
  split at h
  · simp at h
  · simp at h; subst h; simp

theorem mergeDepartment_shape (env : Env) (info : ProfileInfo) (user : Option AuthUser) (s : St)
    (u : Option AuthUser) (e : Option String) (s1 : St)
    (h : mergeDepartment env info user s = Res.ret (u, e) s1) :
    (u = none ∧ e ≠ none) ∨ (u ≠ none ∧ e = none) := by
  unfold mergeDepartment at h
  split at h
  · simp at h
  · split at h
    · rename_i h1
      simp at h; obtain ⟨⟨rfl, rfl⟩, -⟩ := h
      exact Or.inl ⟨rfl, ne_none_of_isSome h1⟩
    · rename_i h1
      split at h
      · simp at h; obtain ⟨⟨rfl, rfl⟩, -⟩ := h
        simp
      · split at h
        · split at h
          · simp at h
          · simp at h; obtain ⟨⟨rfl, rfl⟩, -⟩ := h
            simp
        · split at h
          · simp at h
          · split at h
            · simp at h; obtain ⟨⟨rfl, rfl⟩, -⟩ := h
              simp
            · split at h
              · simp at h
              · split at h
                · simp at h
                · rename_i hid
                  simp at h
                  obtain ⟨⟨rfl, rfl⟩, -⟩ := h
                  exact Or.inr ⟨setId_some _ _ _ hid, eq_none_of_not_isSome h1⟩

theorem FetchAuthUser_shape (env : Env) (p : WecomProvider) (token : Option Token) (w : World)
    (u : Option AuthUser) (e : Option String) (s : St)
    (h : FetchAuthUser env p token w = Res.ret (u, e) s) :
    (u = none ∧ e ≠ none) ∨ (u ≠ none ∧ e = none) := by
  unfold FetchAuthUser at h
  split at h
  · simp at h
  · split at h
    · rename_i h1
      simp at h; obtain ⟨⟨rfl, rfl⟩, -⟩ := h
      exact Or.inl ⟨rfl, ne_none_of_isSome h1⟩
    · simp only at h
      split at h
      · simp at h; obtain ⟨⟨rfl, rfl⟩, -⟩ := h
        simp
      · split at h
        · split at h
          · simp at h
          · split at h
            · rename_i h1
              simp at h; obtain ⟨⟨rfl, rfl⟩, -⟩ := h
              exact Or.inl ⟨rfl, ne_none_of_isSome h1⟩
            · exact mergeDepartment_shape _ _ _ _ _ _ _ h
        · exact mergeDepartment_shape _ _ _ _ _ _ _ h

/-- C7: whatever the upstream responses, a result pair returned by
`FetchAuthUser` never holds both a user and an error: if the error is non-nil
the user is nil, if a user is returned the error is nil (and a nil user always
comes with an error). -/
theorem FetchAuthUser_no_partial_user (env : Env) (p : WecomProvider) (token : Option Token)
    (w : World) (u : Option AuthUser) (e : Option String) (s : St)
    (h : FetchAuthUser env p token w = Res.ret (u, e) s) :
    (e ≠ none → u = none) ∧ (u ≠ none → e = none) ∧ (u = none → e ≠ none) := by
  rcases FetchAuthUser_shape env p token w u e s h with ⟨h1, h2⟩ | ⟨h1, h2⟩
  · exact ⟨fun _ => h1, fun h3 => absurd h1 h3, fun _ => h2⟩
  · exact ⟨fun h3 => absurd h2 h3, fun _ => h2, fun h3 => absurd h3 h1⟩

/-- C7 on the rejection scenario: the returned pair is (nil, "invalid code"). -/
theorem FetchAuthUser_no_partial_user_witness :
    FetchAuthUser rejectedEnv demoProvider demoToken {} =
      Res.ret (none, some "invalid code")
        (FetchRawUserInfo rejectedEnv demoProvider demoToken {}).state ∧
    ((some "invalid code" ≠ none → (none : Option AuthUser) = none) ∧
      ((none : Option AuthUser) ≠ none → some "invalid code" = none) ∧
      ((none : Option AuthUser) = none → some "invalid code" ≠ none)) :=
  ⟨by decide,
    FetchAuthUser_no_partial_user rejectedEnv demoProvider demoToken {} none
      (some "invalid code") (FetchRawUserInfo rejectedEnv demoProvider demoToken {}).state
      (by decide)⟩

/-- C9: for every code string, the empty one included, `FetchToken` returns a
nil error and a credential whose access token is the code verbatim. -/
theorem FetchToken_identity (p : WecomProvider) (code : String) :
    ∃ t : Token, FetchToken p code = (some t, none) ∧ t.AccessToken = code :=
  ⟨{ AccessToken := code }, rfl, rfl⟩

/-! ## The user built from a detail response -/

theorem lookup_delete (m : JMap) (k k2 : String) :
    (m.delete k).lookup k2 = if k2 = k then none else m.lookup k2 := by
  unfold JMap.delete
  induction m with
  | nil => simp
  | cons kv m ih =>
    obtain ⟨a, v⟩ := kv
    by_cases hak : a = k
    · subst hak
      by_cases h2 : k2 = a
      · subst h2
        simpa [List.filter_cons] using ih
      · have : (k2 == a) = false := by simpa using h2
        simpa [List.filter_cons, List.lookup_cons, this, h2] using ih
    · have hne : (a != k) = true := by simpa using hak
      by_cases h2 : k2 = a
      · subst h2
        simp [List.filter_cons, hne, List.lookup_cons, hak]
      · have h3 : (k2 == a) = false := by simpa using h2
        simpa [List.filter_cons, hne, List.lookup_cons, h3] using ih

theorem get_delete_ne (m : JMap) (k k2 : String) (h : k2 ≠ k) :
    (m.delete k).get k2 = m.get k2 := by
  unfold JMap.get
  rw [lookup_delete, if_neg h]

theorem asString_str (s : String) : asString (JVal.str s) = some s := rfl

theorem asString_eq_some (v : JVal) (s : String) : asString v = some s ↔ v = JVal.str s := by
  cases v <;> simp [asString]

/-- The user `getUserInfo` builds from a detail response that carries user id,
avatar and personal email as strings. -/
theorem userFromDetail_eval (det : JMap) (userid avatar pe : String)
    (hok : det.get "errmsg" = JVal.str "ok")
    (hu : det.get "userid" = JVal.str userid)
    (ha : det.get "avatar" = JVal.str avatar)
    (he : det.get "email" = JVal.str pe) :
    userFromDetail det =
      if pe ≠ "" then
        Except.ok (some
          { Username := userid, AvatarURL := avatar, Email := pe,
            RawUser := some ((det.delete "errcode").delete "errmsg") }, none)
      else
        match asString (det.get "biz_mail") with
        | none => Except.error "interface conversion: biz_mail is not string"
        | some biz =>
          Except.ok (some
            { Username := userid, AvatarURL := avatar, Email := biz,
              RawUser := some (((det.delete "errcode").delete "errmsg").delete "email") },
            none) := by
  have g : ∀ k : String, k ≠ "errcode" → k ≠ "errmsg" →
      ((det.delete "errcode").delete "errmsg").get k = det.get k := by
    intro k h1 h2
    rw [get_delete_ne _ _ _ h2, get_delete_ne _ _ _ h1]
  unfold userFromDetail
  simp only [hok, ne_eq, not_true_eq_false, if_false]
  rw [g "userid" (by decide) (by decide), g "avatar" (by decide) (by decide),
    g "email" (by decide) (by decide), g "biz_mail" (by decide) (by decide), hu, ha, he]
  simp only [asString_str]
  by_cases hpe : pe = ""
  · simp only [hpe, not_true_eq_false, if_false]
    cases hb : asString (det.get "biz_mail") with
    | none => rfl
    | some biz =>
      by_cases hbz : biz = ""
      · simp [hbz]
      · simp [hbz]
  · simp [hpe]

/-- A detail response with errmsg "ok" yields a result pair only if it carries
user id, avatar and personal email as strings. -/
theorem userFromDetail_fields (det : JMap) (r : UserResult)
    (hok : det.get "errmsg" = JVal.str "ok")
    (h : userFromDetail det = Except.ok r) :
    ∃ userid avatar pe, det.get "userid" = JVal.str userid ∧
      det.get "avatar" = JVal.str avatar ∧ det.get "email" = JVal.str pe := by
  have g : ∀ k : String, k ≠ "errcode" → k ≠ "errmsg" →
      ((det.delete "errcode").delete "errmsg").get k = det.get k := by
    intro k h1 h2
    rw [get_delete_ne _ _ _ h2, get_delete_ne _ _ _ h1]
  unfold userFromDetail at h
  simp only [hok, ne_eq, not_true_eq_false, if_false] at h
  rw [g "userid" (by decide) (by decide), g "avatar" (by decide) (by decide),
    g "email" (by decide) (by decide)] at h
  cases h1 : asString (det.get "userid") with
  | none => simp [h1] at h
  | some userid =>
    cases h2 : asString (det.get "avatar") with
    | none => simp [h1, h2] at h
    | some avatar =>
      cases h3 : asString (det.get "email") with
      | none => simp [h1, h2, h3] at h
      | some pe =>
        exact ⟨userid, avatar, pe, (asString_eq_some _ _).mp h1, (asString_eq_some _ _).mp h2,
          (asString_eq_some _ _).mp h3⟩

/-- The run of `getUserInfo` once the application token, the detail response
and its decoding are known. -/
theorem getUserInfo_of_detail (env : Env) (p : WecomProvider) (ticket : String) (w : World)
    (tok : String) (s1 : St) (body : String) (w2 : World) (det : JMap)
    (hA : getAppToken env p w = Res.ret (tok, none) s1)
    (hB : httpRequest env (detailRequest env s1.p tok ticket) s1.w = Res.ret (body, none) w2)
    (hC : env.unmarshalMap body = Except.ok det) :
    getUserInfo env p ticket w =
      match userFromDetail det with
      | Except.error m => Res.panic m { s1 with w := w2 }
      | Except.ok r => Res.ret r { s1 with w := w2 } := by
  unfold getUserInfo
  rw [hA]
  simp [hB, hC]

/-- C5 (failing input): a detail response with errmsg "ok" that carries user id
and avatar but neither `email` nor `biz_mail` makes `getUserInfo` panic on the
type assertion of the absent `email`; no user with an unset email is returned. -/
theorem getUserInfo_absent_email_panics :
    noEmailEnv.unmarshalMap noEmailBody = Except.ok noEmailMap ∧
    noEmailMap.get "errmsg" = JVal.str "ok" ∧
    noEmailMap.lookup "email" = none ∧ noEmailMap.lookup "biz_mail" = none ∧
    getUserInfo noEmailEnv demoProvider "T1" {} =
      Res.panic "interface conversion: email is not string"
        (getUserInfo noEmailEnv demoProvider "T1" {}).state ∧
    (added {} (getUserInfo noEmailEnv demoProvider "T1" {}).state.w).map (fun r => r.site) =
      [Site.token, Site.detail] := by
  refine ⟨rfl, by decide, by decide, by decide, by decide, by decide⟩

/-- C10 (counterexample): in the detail response of the end-to-end scenario the
key `email` is present (with the empty string) and is neither `errcode` nor
`errmsg`, yet it is absent from the raw attributes of the returned user. -/
theorem getUserInfo_drops_empty_email :
    scenarioEnv.unmarshalMap detailBody = Except.ok detailMap ∧
    detailMap.get "errmsg" = JVal.str "ok" ∧
    detailMap.lookup "email" = some (JVal.str "") ∧
    ∃ usr s raw, getUserInfo scenarioEnv demoProvider "T1" {} = Res.ret (some usr, none) s ∧
      usr.RawUser = some raw ∧ raw.lookup "email" = none ∧
      ¬ (∀ k, k ≠ "errcode" → k ≠ "errmsg" → raw.lookup k = detailMap.lookup k) := by
  refine ⟨rfl, by decide, by decide,
    { Username := "lisi", AvatarURL := "http://x/0", Email := "zs@corp.com",
      RawUser := some [("userid", JVal.str "lisi"), ("avatar", JVal.str "http://x/0"),
        ("biz_mail", JVal.str "zs@corp.com")] },
    (getUserInfo scenarioEnv demoProvider "T1" {}).state, _, by decide, rfl, by decide, ?_⟩
  intro h
  exact absurd (h "email" (by decide) (by decide)) (by decide)

/-- C10 (amended): for a detail response with errmsg "ok", the raw attributes of
a user returned by `getUserInfo` are the response map without `errcode` and
`errmsg`, and also without `email` when the personal email is the empty string:
those keys are absent and every other key keeps its value. A user is returned
whenever the response carries user id, avatar and personal email as strings
(and the business email as a string when the personal one is empty). -/
theorem getUserInfo_raw_attributes (env : Env) (p : WecomProvider) (ticket : String) (w : World)
    (tok : String) (s1 : St) (body : String) (w2 : World) (det : JMap)
    (hA : getAppToken env p w = Res.ret (tok, none) s1)
    (hB : httpRequest env (detailRequest env s1.p tok ticket) s1.w = Res.ret (body, none) w2)
    (hC : env.unmarshalMap body = Except.ok det)
    (hok : det.get "errmsg" = JVal.str "ok") :
    (∀ u e s, getUserInfo env p ticket w = Res.ret (u, e) s →
      ∃ usr raw, u = some usr ∧ e = none ∧ usr.RawUser = some raw ∧
        raw.lookup "errcode" = none ∧ raw.lookup "errmsg" = none ∧
        (det.get "email" = JVal.str "" → raw.lookup "email" = none) ∧
        ∀ k, k ≠ "errcode" → k ≠ "errmsg" →
          (k = "email" → det.get "email" ≠ JVal.str "") → raw.lookup k = det.lookup k) ∧
    (∀ userid avatar pe, det.get "userid" = JVal.str userid →
      det.get "avatar" = JVal.str avatar → det.get "email" = JVal.str pe →
      (pe = "" → ∃ be, det.get "biz_mail" = JVal.str be) →
      ∃ usr, getUserInfo env p ticket w = Res.ret (some usr, none) { s1 with w := w2 }) := by
  have hrun := getUserInfo_of_detail env p ticket w tok s1 body w2 det hA hB hC
  constructor
  · intro u e s hret
    rw [hrun] at hret
    cases hd : userFromDetail det with
    | error m => simp [hd] at hret
    | ok r =>
      simp only [hd, Res.ret.injEq] at hret
      obtain ⟨userid, avatar, pe, hu, ha, he⟩ := userFromDetail_fields det r hok hd
      rw [userFromDetail_eval det userid avatar pe hok hu ha he] at hd
      by_cases hpe : pe = ""
      · subst hpe
        simp only [ne_eq, not_true_eq_false, if_false] at hd
        cases hb : asString (det.get "biz_mail") with
        | none => simp [hb] at hd
        | some biz =>
          simp only [hb, Except.ok.injEq] at hd
          rw [← hd] at hret
          obtain ⟨hue, -⟩ := hret
          simp only [Prod.mk.injEq] at hue
          obtain ⟨rfl, rfl⟩ := hue
          refine ⟨_, _, rfl, rfl, rfl, ?_, ?_, ?_, ?_⟩
          · simp [lookup_delete]
          · simp [lookup_delete]
          · intro _
            simp [lookup_delete]
          · intro k h1 h2 h3
            have h4 : k ≠ "email" := fun h => h3 h he
            simp [lookup_delete, h1, h2, h4]
      · simp only [ne_eq, hpe, not_false_eq_true, if_true, Except.ok.injEq] at hd
        rw [← hd] at hret
        obtain ⟨hue, -⟩ := hret
        simp only [Prod.mk.injEq] at hue
        obtain ⟨rfl, rfl⟩ := hue
        refine ⟨_, _, rfl, rfl, rfl, ?_, ?_, ?_, ?_⟩
        · simp [lookup_delete]
        · simp [lookup_delete]
        · intro h
          rw [he] at h
          simp only [JVal.str.injEq] at h
          exact absurd h hpe
        · intro k h1 h2 _
          simp [lookup_delete, h1, h2]
  · intro userid avatar pe hu ha he hb
    rw [hrun, userFromDetail_eval det userid avatar pe hok hu ha he]
    by_cases hpe : pe = ""
    · obtain ⟨be, hbe⟩ := hb hpe
      simp [hpe, hbe, asString_str]
    · simp [hpe]

/-- C10 (amended) on the detail response of the end-to-end scenario. -/
theorem getUserInfo_raw_attributes_witness :
    (∀ u e s, getUserInfo scenarioEnv demoProvider "T1" {} = Res.ret (u, e) s →
      ∃ usr raw, u = some usr ∧ e = none ∧ usr.RawUser = some raw ∧
        raw.lookup "errcode" = none ∧ raw.lookup "errmsg" = none ∧
        (detailMap.get "email" = JVal.str "" → raw.lookup "email" = none) ∧
        ∀ k, k ≠ "errcode" → k ≠ "errmsg" →
          (k = "email" → detailMap.get "email" ≠ JVal.str "") →
          raw.lookup k = detailMap.lookup k) ∧
    (∀ userid avatar pe, detailMap.get "userid" = JVal.str userid →
      detailMap.get "avatar" = JVal.str avatar → detailMap.get "email" = JVal.str pe →
      (pe = "" → ∃ be, detailMap.get "biz_mail" = JVal.str be) →
      ∃ usr, getUserInfo scenarioEnv demoProvider "T1" {} = Res.ret (some usr, none)
        { (getAppToken scenarioEnv demoProvider {}).state with
          w := (getUserInfo scenarioEnv demoProvider "T1" {}).state.w }) :=
  getUserInfo_raw_attributes scenarioEnv demoProvider "T1" {} "TOK"
    (getAppToken scenarioEnv demoProvider {}).state detailBody
    (getUserInfo scenarioEnv demoProvider "T1" {}).state.w detailMap
    (by decide) (by decide) rfl (by decide)

/-! ## The run of `FetchAuthUser` step by step -/

/-- Once the raw profile is accepted and the seeding step has returned without
error, `FetchAuthUser` is the department lookup and merge. -/
theorem FetchAuthUser_of_seed (env : Env) (p : WecomProvider) (token : Option Token) (w : World)
    (body : String) (s1 : St) (user : Option AuthUser) (s2 : St)
    (hraw : FetchRawUserInfo env p token w = Res.ret (body, none) s1)
    (hcode : (env.unmarshalProfile body).Code = 0)
    (herr : (env.unmarshalProfile body).Error = "ok")
    (hseed : seedUser env (env.unmarshalProfile body) s1 = Res.ret (user, none) s2) :
    FetchAuthUser env p token w = mergeDepartment env (env.unmarshalProfile body) user s2 := by
  unfold FetchAuthUser
  rw [hraw]
  unfold seedUser at hseed
  by_cases ht : (env.unmarshalProfile body).User_ticket = ""
  · simp only [ht, ne_eq, not_true_eq_false, if_false, Res.ret.injEq, Prod.mk.injEq,
      and_true] at hseed
    obtain ⟨rfl, rfl⟩ := hseed
    simp [hcode, herr, ht]
  · simp only [ne_eq, ht, not_false_eq_true, if_true] at hseed
    simp [hcode, herr, ht, hseed]

/-- The department step once its response and the decoding are known. -/
theorem mergeDepartment_of_response (env : Env) (info : ProfileInfo) (user : Option AuthUser)
    (s : St) (dbody : String) (w3 : World) (dep : JMap)
    (hD : httpRequest env (departmentRequest env s.p info) s.w = Res.ret (dbody, none) w3)
    (hM : env.unmarshalMap dbody = Except.ok dep)
    (hok : dep.get "errmsg" = JVal.str "ok") :
    mergeDepartment env info user s =
      match asFloat64 (dep.get "status") with
      | none => Res.panic "interface conversion: status is not float64" { s with w := w3 }
      | some st =>
        if st ≠ F64.int 1 then
          Res.ret (none, some ("user status=" ++ st.fmtV ++ ", no access")) { s with w := w3 }
        else
          match setName dep user with
          | Except.error m => Res.panic m { s with w := w3 }
          | Except.ok user1 =>
            match setId info user1 with
            | Except.error m => Res.panic m { s with w := w3 }
            | Except.ok user2 => Res.ret (user2, none) { s with w := w3 } := by
  unfold mergeDepartment
  rw [hD]
  simp [hM, hok]

theorem fmtV_small (st : Int) (hlo : -1000000 < st) (hhi : st < 1000000) :
    (F64.int st).fmtV = decimal st := by
  cases st with
  | ofNat m =>
    have hm : m < 1000000 := by
      have : (m : Int) < 1000000 := hhi
      omega
    simp [F64.fmtV, decimal, fmtNatG, hm]
  | negSucc m =>
    have hm : m + 1 < 1000000 := by
      have h := hlo
      rw [Int.negSucc_eq] at h
      omega
    simp [F64.fmtV, decimal, fmtNatG, hm]

theorem containsText_middle (a b c : String) : containsText (a ++ b ++ c) b := by
  unfold containsText
  exact ⟨a.data, c.data, by simp [String.data_append]⟩

/-- C2 (counterexample): with every earlier step successful and a department
response of errmsg "ok" and integer status 1000000, the error message is
"user status=1e+06, no access", which does not contain the decimal rendering
"1000000". -/
theorem FetchAuthUser_status_exponent :
    bigStatusEnv.unmarshalMap bigStatusBody = Except.ok bigStatusMap ∧
    bigStatusMap.get "errmsg" = JVal.str "ok" ∧
    bigStatusMap.get "status" = JVal.num (F64.int 1000000) ∧
    seedUser bigStatusEnv rawInfo (FetchRawUserInfo bigStatusEnv demoProvider demoToken {}).state =
      Res.ret (some scenarioSeed, none)
        (seedUser bigStatusEnv rawInfo
          (FetchRawUserInfo bigStatusEnv demoProvider demoToken {}).state).state ∧
    FetchAuthUser bigStatusEnv demoProvider demoToken {} =
      Res.ret (none, some "user status=1e+06, no access")
        (FetchAuthUser bigStatusEnv demoProvider demoToken {}).state ∧
    decimal 1000000 = "1000000" ∧
    ¬ containsText "user status=1e+06, no access" (decimal 1000000) := by
  refine ⟨rfl, by decide, by decide, by decide, by decide, by decide, by decide⟩

/-- C2 (amended): when the raw profile is accepted, the seeding step (the
user-detail call when a ticket is present) returns without error and the
department response has errmsg "ok" with an integer status `st` other than 1
and of magnitude below 1000000, `FetchAuthUser` returns no user and the error
"user status=<st>, no access", which contains the decimal rendering of `st`. -/
theorem FetchAuthUser_status_gate (env : Env) (p : WecomProvider) (token : Option Token)
    (w : World) (body : String) (s1 : St) (user : Option AuthUser) (s2 : St)
    (dbody : String) (w3 : World) (dep : JMap) (st : Int)
    (hraw : FetchRawUserInfo env p token w = Res.ret (body, none) s1)
    (hcode : (env.unmarshalProfile body).Code = 0)
    (herr : (env.unmarshalProfile body).Error = "ok")
    (hseed : seedUser env (env.unmarshalProfile body) s1 = Res.ret (user, none) s2)
    (hD : httpRequest env (departmentRequest env s2.p (env.unmarshalProfile body)) s2.w =
      Res.ret (dbody, none) w3)
    (hM : env.unmarshalMap dbody = Except.ok dep)
    (hok : dep.get "errmsg" = JVal.str "ok")
    (hst : dep.get "status" = JVal.num (F64.int st))
    (hne : st ≠ 1) (hlo : -1000000 < st) (hhi : st < 1000000) :
    FetchAuthUser env p token w =
      Res.ret (none, some ("user status=" ++ decimal st ++ ", no access")) { s2 with w := w3 } ∧
    containsText ("user status=" ++ decimal st ++ ", no access") (decimal st) := by
  refine ⟨?_, containsText_middle _ _ _⟩
  rw [FetchAuthUser_of_seed env p token w body s1 user s2 hraw hcode herr hseed,
    mergeDepartment_of_response env _ user s2 dbody w3 dep hD hM hok, hst]
  have h1 : F64.int st ≠ F64.int 1 := by
    intro h
    exact hne (F64.int.inj h)
  simp [asFloat64, h1, fmtV_small st hlo hhi]

/-- C2 (amended) on the status-gate scenario of the spec: status 2 yields an
error containing "2". -/
theorem FetchAuthUser_status_gate_witness :
    statusTwoMap.get "status" = JVal.num (F64.int 2) ∧
    FetchAuthUser statusTwoEnv demoProvider demoToken {} =
      Res.ret (none, some ("user status=" ++ decimal 2 ++ ", no access"))
        { (seedUser statusTwoEnv rawInfo
            (FetchRawUserInfo statusTwoEnv demoProvider demoToken {}).state).state with
          w := (FetchAuthUser statusTwoEnv demoProvider demoToken {}).state.w } ∧
    containsText ("user status=" ++ decimal 2 ++ ", no access") (decimal 2) :=
  ⟨by decide,
    FetchAuthUser_status_gate statusTwoEnv demoProvider demoToken {} rawBody
      (FetchRawUserInfo statusTwoEnv demoProvider demoToken {}).state (some scenarioSeed)
      (seedUser statusTwoEnv rawInfo
        (FetchRawUserInfo statusTwoEnv demoProvider demoToken {}).state).state
      statusTwoBody (FetchAuthUser statusTwoEnv demoProvider demoToken {}).state.w statusTwoMap 2
      (by decide) (by decide) (by decide) (by decide) (by decide) rfl (by decide) (by decide)
      (by decide) (by decide) (by decide)⟩

/-- What a returned pair of the detail step looks like. -/
theorem userFromDetail_ok (det : JMap) (r : UserResult)
    (hok : det.get "errmsg" = JVal.str "ok")
    (h : userFromDetail det = Except.ok r) :
    ∃ usr, r = (some usr, none) ∧ usr.Id = "" ∧ usr.Name = "" ∧
      det.get "userid" = JVal.str usr.Username ∧ det.get "avatar" = JVal.str usr.AvatarURL ∧
      usr.Email = detailEmail det := by
  obtain ⟨userid, avatar, pe, hu, ha, he⟩ := userFromDetail_fields det r hok h
  rw [userFromDetail_eval det userid avatar pe hok hu ha he] at h
  by_cases hpe : pe = ""
  · subst hpe
    simp only [ne_eq, not_true_eq_false, if_false] at h
    cases hb : asString (det.get "biz_mail") with
    | none => simp [hb] at h
    | some biz =>
      simp only [hb, Except.ok.injEq] at h
      refine ⟨_, h.symm, rfl, rfl, hu, ha, ?_⟩
      simp only [detailEmail, he, asString_str, hb, Option.getD_some, selectEmail]
      by_cases hbz : biz = "" <;> simp [hbz]
  · simp only [ne_eq, hpe, not_false_eq_true, if_true, Except.ok.injEq] at h
    refine ⟨_, h.symm, rfl, rfl, hu, ha, ?_⟩
    simp [detailEmail, he, asString_str, selectEmail, hpe]

theorem setName_of_unnamed (dep : JMap) (u : AuthUser) (r : Option AuthUser) (hn : u.Name = "")
    (h : setName dep (some u) = Except.ok r) :
    ∃ nm, dep.get "name" = JVal.str nm ∧ r = some { u with Name := nm } := by
  unfold setName at h
  split at h
  · cases hs : asString (dep.get "name") with
    | none => simp [hs] at h
    | some nm =>
      simp only [hs, Except.ok.injEq] at h
      exact ⟨nm, (asString_eq_some _ _).mp hs, h.symm⟩
  · rename_i hname
    simp only [ne_eq, not_not] at hname
    simp only [Except.ok.injEq] at h
    refine ⟨"", hname, ?_⟩
    rw [← h, ← hn]

theorem setName_eval (dep : JMap) (u : AuthUser) (nm : String) (hn : u.Name = "")
    (h : dep.get "name" = JVal.str nm) :
    setName dep (some u) = Except.ok (some { u with Name := nm }) := by
  unfold setName
  by_cases hnm : nm = ""
  · subst hnm
    simp only [h, ne_eq, not_true_eq_false, if_false]
    rw [← hn]
  · have : JVal.str nm ≠ JVal.str "" := fun hh => hnm (JVal.str.inj hh)
    simp [h, this, asString_str]

theorem setId_eval (info : ProfileInfo) (u : AuthUser) (hid : u.Id = "") :
    setId info (some u) =
      Except.ok (some { u with Id := if info.Openid ≠ "" then info.Openid else u.Username }) := by
  unfold setId
  by_cases ho : info.Openid = ""
  · simp [ho, hid]
  · simp [ho]

/-- The ticket path on responses that carry the fields the code reads. With the
raw profile accepted (errcode 0, errmsg "ok", non-empty ticket), a detail
response with errmsg "ok" and a department response with errmsg "ok" and status
1: every user `FetchAuthUser` returns comes with a nil error and has username =
the detail response's userid, avatarUrl = its avatar, email chosen by the
email-selection rule, name = the department response's name and id = the raw
profile's openid when non-empty, else the username; a user is returned when
user id, avatar, personal email (business email when that is empty) and
department name are strings; and on the end-to-end scenario of the spec the
result is the user lisi / 张三 / zs@corp.com / http://x/0. -/
theorem FetchAuthUser_ticket_path (env : Env) (p : WecomProvider) (token : Option Token)
    (w : World) (body : String) (s1 : St) (tok : String) (sA : St) (dbody : String)
    (wB : World) (det : JMap) (pbody : String) (wD : World) (dep : JMap)
    (hraw : FetchRawUserInfo env p token w = Res.ret (body, none) s1)
    (hcode : (env.unmarshalProfile body).Code = 0)
    (herr : (env.unmarshalProfile body).Error = "ok")
    (hticket : (env.unmarshalProfile body).User_ticket ≠ "")
    (hA : getAppToken env s1.p s1.w = Res.ret (tok, none) sA)
    (hB : httpRequest env (detailRequest env sA.p tok (env.unmarshalProfile body).User_ticket)
      sA.w = Res.ret (dbody, none) wB)
    (hC : env.unmarshalMap dbody = Except.ok det)
    (hdok : det.get "errmsg" = JVal.str "ok")
    (hD : httpRequest env (departmentRequest env sA.p (env.unmarshalProfile body)) wB =
      Res.ret (pbody, none) wD)
    (hM : env.unmarshalMap pbody = Except.ok dep)
    (hpok : dep.get "errmsg" = JVal.str "ok")
    (hst : dep.get "status" = JVal.num (F64.int 1)) :
    (∀ u e s, FetchAuthUser env p token w = Res.ret (u, e) s →
      ∃ usr, u = some usr ∧ e = none ∧
        det.get "userid" = JVal.str usr.Username ∧
        det.get "avatar" = JVal.str usr.AvatarURL ∧
        usr.Email = detailEmail det ∧
        dep.get "name" = JVal.str usr.Name ∧
        usr.Id = (if (env.unmarshalProfile body).Openid ≠ "" then
          (env.unmarshalProfile body).Openid else usr.Username)) ∧
    (∀ userid avatar pe nm, det.get "userid" = JVal.str userid →
      det.get "avatar" = JVal.str avatar → det.get "email" = JVal.str pe →
      (pe = "" → ∃ be, det.get "biz_mail" = JVal.str be) → dep.get "name" = JVal.str nm →
      ∃ usr, FetchAuthUser env p token w = Res.ret (some usr, none) { p := sA.p, w := wD }) ∧
    FetchAuthUser scenarioEnv demoProvider demoToken {} =
      Res.ret (some scenarioUser, none)
        (FetchAuthUser scenarioEnv demoProvider demoToken {}).state := by
  have hget := getUserInfo_of_detail env s1.p (env.unmarshalProfile body).User_ticket s1.w tok sA
    dbody wB det hA hB hC
  have hmerge : ∀ user : Option AuthUser,
      mergeDepartment env (env.unmarshalProfile body) user { sA with w := wB } =
        match setName dep user with
        | Except.error m => Res.panic m { p := sA.p, w := wD }
        | Except.ok user1 =>
          match setId (env.unmarshalProfile body) user1 with
          | Except.error m => Res.panic m { p := sA.p, w := wD }
          | Except.ok user2 => Res.ret (user2, none) { p := sA.p, w := wD } := by
    intro user
    rw [mergeDepartment_of_response env _ user { sA with w := wB } pbody wD dep hD hM hpok, hst]
    simp [asFloat64]
  have hrun : ∀ usr0 : AuthUser, userFromDetail det = Except.ok (some usr0, none) →
      FetchAuthUser env p token w =
        match setName dep (some usr0) with
        | Except.error m => Res.panic m { p := sA.p, w := wD }
        | Except.ok user1 =>
          match setId (env.unmarshalProfile body) user1 with
          | Except.error m => Res.panic m { p := sA.p, w := wD }
          | Except.ok user2 => Res.ret (user2, none) { p := sA.p, w := wD } := by
    intro usr0 h0
    have hseed : seedUser env (env.unmarshalProfile body) s1 =
        Res.ret (some usr0, none) { sA with w := wB } := by
      unfold seedUser
      rw [if_pos hticket, hget, h0]
    rw [FetchAuthUser_of_seed env p token w body s1 (some usr0) _ hraw hcode herr hseed, hmerge]
  refine ⟨?_, ?_, by decide⟩
  · intro u e s hret
    cases hd : userFromDetail det with
    | error m =>
      exfalso
      unfold FetchAuthUser at hret
      rw [hraw] at hret
      simp [hcode, herr, hticket, hget, hd] at hret
    | ok r =>
      obtain ⟨usr0, rfl, hid, hname, hu, ha, hem⟩ := userFromDetail_ok det r hdok hd
      rw [hrun usr0 hd] at hret
      cases hsn : setName dep (some usr0) with
      | error m => simp [hsn] at hret
      | ok user1 =>
        obtain ⟨nm, hnm, rfl⟩ := setName_of_unnamed dep usr0 user1 hname hsn
        rw [hsn] at hret
        simp only at hret
        rw [setId_eval _ { usr0 with Name := nm } hid] at hret
        simp only [Res.ret.injEq, Prod.mk.injEq] at hret
        obtain ⟨⟨rfl, rfl⟩, -⟩ := hret
        exact ⟨_, rfl, rfl, hu, ha, hem, hnm, rfl⟩
  · intro userid avatar pe nm hu ha he hb hnm
    have hd := userFromDetail_eval det userid avatar pe hdok hu ha he
    by_cases hpe : pe = ""
    · obtain ⟨be, hbe⟩ := hb hpe
      simp only [hpe, ne_eq, not_true_eq_false, if_false, hbe, asString_str] at hd
      rw [hrun _ hd, setName_eval dep _ nm rfl hnm]
      simp only
      rw [setId_eval _ _ rfl]
      exact ⟨_, rfl⟩
    · simp only [ne_eq, hpe, not_false_eq_true, if_true] at hd
      rw [hrun _ hd, setName_eval dep _ nm rfl hnm]
      simp only
      rw [setId_eval _ _ rfl]
      exact ⟨_, rfl⟩

/-- The ticket path on the end-to-end scenario of the spec. -/
theorem FetchAuthUser_ticket_path_witness :
    (scenarioEnv.unmarshalProfile rawBody).User_ticket ≠ "" ∧
    detailMap.get "errmsg" = JVal.str "ok" ∧
    deptMap.get "status" = JVal.num (F64.int 1) ∧
    ∃ usr, some scenarioUser = some usr ∧ (none : Option String) = none ∧
      detailMap.get "userid" = JVal.str usr.Username ∧
      detailMap.get "avatar" = JVal.str usr.AvatarURL ∧
      usr.Email = detailEmail detailMap ∧
      deptMap.get "name" = JVal.str usr.Name ∧
      usr.Id = (if (scenarioEnv.unmarshalProfile rawBody).Openid ≠ "" then
        (scenarioEnv.unmarshalProfile rawBody).Openid else usr.Username) :=
  ⟨by decide, by decide, by decide,
    (FetchAuthUser_ticket_path scenarioEnv demoProvider demoToken {} rawBody
      (FetchRawUserInfo scenarioEnv demoProvider demoToken {}).state "TOK"
      (getAppToken scenarioEnv (FetchRawUserInfo scenarioEnv demoProvider demoToken {}).state.p
        (FetchRawUserInfo scenarioEnv demoProvider demoToken {}).state.w).state
      detailBody
      (getUserInfo scenarioEnv (FetchRawUserInfo scenarioEnv demoProvider demoToken {}).state.p
        "T1" (FetchRawUserInfo scenarioEnv demoProvider demoToken {}).state.w).state.w
      detailMap deptBody (FetchAuthUser scenarioEnv demoProvider demoToken {}).state.w deptMap
      (by decide) (by decide) (by decide) (by decide) (by decide) (by decide) rfl (by decide)
      (by decide) rfl (by decide) (by decide)).1 (some scenarioUser) none
      (FetchAuthUser scenarioEnv demoProvider demoToken {}).state (by decide)⟩

/-- C6 (failing input): the raw profile has errcode 0, errmsg "ok" and the ticket
"T1", the detail response has errmsg "ok" (it is the one of the end-to-end
scenario) and the department response has errmsg "ok" and status 1 but carries
no name. All three upstream calls are made and answered, and `FetchAuthUser`
then panics on the type assertion of the absent name (lines 111-113): no user
is returned. Under the same three conditions a detail response without email
makes it panic at line 231 before the department lookup. -/
theorem FetchAuthUser_absent_name_panics :
    (noNameEnv.unmarshalProfile rawBody).Code = 0 ∧
    (noNameEnv.unmarshalProfile rawBody).Error = "ok" ∧
    (noNameEnv.unmarshalProfile rawBody).User_ticket = "T1" ∧
    noNameEnv.unmarshalMap detailBody = Except.ok detailMap ∧
    detailMap.get "errmsg" = JVal.str "ok" ∧
    noNameEnv.unmarshalMap noNameBody = Except.ok noNameMap ∧
    noNameMap.get "errmsg" = JVal.str "ok" ∧
    noNameMap.get "status" = JVal.num (F64.int 1) ∧
    noNameMap.lookup "name" = none ∧
    FetchAuthUser noNameEnv demoProvider demoToken {} =
      Res.panic "interface conversion: name is not string"
        (FetchAuthUser noNameEnv demoProvider demoToken {}).state ∧
    (added {} (FetchAuthUser noNameEnv demoProvider demoToken {}).state.w).map
      (fun r => r.site) = [Site.token, Site.profile, Site.detail, Site.department] ∧
    (noEmailEnv.unmarshalProfile rawBody).User_ticket = "T1" ∧
    noEmailMap.get "errmsg" = JVal.str "ok" ∧
    FetchAuthUser noEmailEnv demoProvider demoToken {} =
      Res.panic "interface conversion: email is not string"
        (FetchAuthUser noEmailEnv demoProvider demoToken {}).state := by
  refine ⟨by decide, by decide, by decide, rfl, by decide, rfl, by decide, by decide,
    by decide, by decide, by decide, by decide, by decide, by decide⟩

/-! ## Counting the requests of a run -/

theorem added_append (w w2 : World) (l : List Request) (h : w2.sent = w.sent ++ l) :
    added w w2 = l := by
  unfold added
  rw [h, List.drop_left]

theorem countSite_append (site : Site) (l1 l2 : List Request) :
    countSite site (l1 ++ l2) = countSite site l1 + countSite site l2 := by
  unfold countSite
  exact List.countP_append _ l1 l2

theorem countSite_other (site : Site) (l : List Request) (h : ∀ r ∈ l, r.site ≠ site) :
    countSite site l = 0 := by
  unfold countSite
  rw [List.countP_eq_zero]
  intro r hr
  simpa using h r hr

theorem countSite_same (site : Site) (l : List Request) (h : ∀ r ∈ l, r.site = site) :
    countSite site l = l.length := by
  unfold countSite
  rw [List.countP_eq_length]
  intro r hr
  simpa using h r hr

theorem mergeDepartment_state (env : Env) (info : ProfileInfo) (user : Option AuthUser) (s : St) :
    (mergeDepartment env info user s).state =
      { s with w := (httpRequest env (departmentRequest env s.p info) s.w).state } := by
  unfold mergeDepartment
  cases h : httpRequest env (departmentRequest env s.p info) s.w with
  | panic m w1 => simp [Res.state]
  | ret r w1 =>
    obtain ⟨body, err⟩ := r
    simp only
    repeat' split
    all_goals rfl

theorem mergeDepartment_sent (env : Env) (info : ProfileInfo) (user : Option AuthUser) (s : St) :
    ∃ l, (mergeDepartment env info user s).state.w.sent = s.w.sent ++ l ∧
      ∀ r ∈ l, r.site = Site.department := by
  refine ⟨_, ?_, departmentRequest_sites env s.p info⟩
  rw [mergeDepartment_state]
  exact httpRequest_sent _ _ _

theorem getUserInfo_state (env : Env) (p : WecomProvider) (ticket : String) (w : World) :
    (getUserInfo env p ticket w).state =
      match getAppToken env p w with
      | Res.panic _ s => s
      | Res.ret (tok, err) s =>
        if err.isSome then s
        else { s with w := (httpRequest env (detailRequest env s.p tok ticket) s.w).state } := by
  unfold getUserInfo
  cases h : getAppToken env p w with
  | panic m s => simp [Res.state]
  | ret r s =>
    obtain ⟨tok, err⟩ := r
    simp only
    split
    · simp [Res.state]
    · cases h2 : httpRequest env (detailRequest env s.p tok ticket) s.w with
      | panic m w2 => simp [Res.state]
      | ret r2 w2 =>
        obtain ⟨body, err2⟩ := r2
        simp only
        repeat' split
        all_goals rfl

theorem detailRequest_some (env : Env) (p : WecomProvider) (tok ticket : String)
    (h : env.urlError (p.userInfoURL ++ "?access_token=" ++ tok) = none) :
    ((detailRequest env p tok ticket).map sentForm).toList.length = 1 := by
  unfold detailRequest newRequest
  simp [h, Except.toOption]

/-- Requests of `getUserInfo`: token requests and at most one detail request,
exactly one when the application token is obtained and the URL is accepted. -/
theorem getUserInfo_sent (env : Env) (p : WecomProvider) (ticket : String) (w : World) :
    ∃ l, (getUserInfo env p ticket w).state.w.sent = w.sent ++ l ∧
      countSite Site.detail l ≤ 1 ∧
      (∀ tok sA, getAppToken env p w = Res.ret (tok, none) sA →
        env.urlError (sA.p.userInfoURL ++ "?access_token=" ++ tok) = none →
        countSite Site.detail l = 1) := by
  obtain ⟨l0, hl0, -, hs0⟩ := getAppToken_sent env p w
  have hz : countSite Site.detail l0 = 0 :=
    countSite_other _ _ (fun r hr => by simp [hs0 r hr])
  rw [getUserInfo_state]
  cases h : getAppToken env p w with
  | panic m s =>
    rw [h] at hl0
    exact ⟨l0, by simpa [Res.state] using hl0, by omega, fun tok sA hh => by simp at hh⟩
  | ret r s =>
    obtain ⟨tok, err⟩ := r
    rw [h] at hl0
    simp only [Res.state] at hl0
    simp only
    split
    · rename_i herr
      refine ⟨l0, hl0, by omega, ?_⟩
      intro tok2 sA hh
      simp only [Res.ret.injEq, Prod.mk.injEq] at hh
      obtain ⟨⟨-, rfl⟩, -⟩ := hh
      simp at herr
    · refine ⟨l0 ++ ((detailRequest env s.p tok ticket).map sentForm).toList, ?_, ?_, ?_⟩
      · simp only
        rw [httpRequest_sent, hl0, List.append_assoc]
      · rw [countSite_append, hz, countSite_same _ _ (detailRequest_sites env s.p tok ticket)]
        have := newRequest_length env Site.detail "POST"
          (s.p.userInfoURL ++ "?access_token=" ++ tok) (ticketBody ticket)
        unfold detailRequest
        omega
      · intro tok2 sA hh hurl
        simp only [Res.ret.injEq, Prod.mk.injEq] at hh
        obtain ⟨⟨rfl, -⟩, rfl⟩ := hh
        rw [countSite_append, hz, countSite_same _ _ (detailRequest_sites env s.p tok ticket),
          detailRequest_some env s.p tok ticket hurl]

/-- C8 (counterexample): the accepted raw profile carries the ticket "T1", but the
cached application token has gone stale when `getUserInfo` starts and the token
endpoint refuses a new one, so the user-detail endpoint is requested zero times
(the requests of the run are one profile request and one token request). -/
theorem FetchAuthUser_ticket_without_detail_request :
    FetchRawUserInfo staleEnv staleProvider demoToken {} =
      Res.ret (rawBody, none) (FetchRawUserInfo staleEnv staleProvider demoToken {}).state ∧
    (staleEnv.unmarshalProfile rawBody).Code = 0 ∧
    (staleEnv.unmarshalProfile rawBody).Error = "ok" ∧
    (staleEnv.unmarshalProfile rawBody).User_ticket = "T1" ∧
    FetchAuthUser staleEnv staleProvider demoToken {} =
      Res.ret (none, some tokenErrorBody)
        (FetchAuthUser staleEnv staleProvider demoToken {}).state ∧
    (added {} (FetchAuthUser staleEnv staleProvider demoToken {}).state.w).map
      (fun r => r.site) = [Site.profile, Site.token] ∧
    countSite Site.detail (added {} (FetchAuthUser staleEnv staleProvider demoToken {}).state.w)
      = 0 := by
  refine ⟨by decide, by decide, by decide, by decide, by decide, by decide, by decide⟩

theorem FetchAuthUser_sent_ticket (env : Env) (p : WecomProvider) (token : Option Token)
    (w : World) (body : String) (s1 : St)
    (hraw : FetchRawUserInfo env p token w = Res.ret (body, none) s1)
    (hcode : (env.unmarshalProfile body).Code = 0)
    (herr : (env.unmarshalProfile body).Error = "ok")
    (ht : (env.unmarshalProfile body).User_ticket ≠ "") :
    ∃ l, (FetchAuthUser env p token w).state.w.sent =
        (getUserInfo env s1.p (env.unmarshalProfile body).User_ticket s1.w).state.w.sent ++ l ∧
      ∀ r ∈ l, r.site = Site.department := by
  unfold FetchAuthUser
  rw [hraw]
  simp only [Option.isSome_none, Bool.false_eq_true, if_false, hcode, herr, ne_eq,
    not_true_eq_false, or_self, ht, not_false_eq_true, if_true]
  cases hg : getUserInfo env s1.p (env.unmarshalProfile body).User_ticket s1.w with
  | panic m s2 => exact ⟨[], by simp [Res.state], by simp⟩
  | ret r s2 =>
    obtain ⟨user, err⟩ := r
    simp only
    split
    · exact ⟨[], by simp [Res.state], by simp⟩
    · obtain ⟨l, hl, hs⟩ := mergeDepartment_sent env (env.unmarshalProfile body) user s2
      exact ⟨l, by simpa [Res.state] using hl, hs⟩

/-- C8 (amended): once the raw profile is accepted, `FetchAuthUser` requests the
user-detail endpoint at most once: never when the ticket is empty, and exactly
once when the ticket is non-empty, `getAppToken` hands `getUserInfo` a token
and `http.NewRequest` accepts the detail URL. In the no-ticket case, when the
department lookup succeeds with status 1 and a name, the returned user has
username = the raw profile's userid, id = openid when non-empty and otherwise
that username, name = the department name, and email, avatarUrl and raw
attributes unset. -/
theorem FetchAuthUser_detail_requests (env : Env) (p : WecomProvider) (token : Option Token)
    (w : World) (body : String) (s1 : St)
    (hraw : FetchRawUserInfo env p token w = Res.ret (body, none) s1)
    (hcode : (env.unmarshalProfile body).Code = 0)
    (herr : (env.unmarshalProfile body).Error = "ok") :
    countSite Site.detail (added w (FetchAuthUser env p token w).state.w) ≤ 1 ∧
    ((env.unmarshalProfile body).User_ticket = "" →
      countSite Site.detail (added w (FetchAuthUser env p token w).state.w) = 0) ∧
    ((env.unmarshalProfile body).User_ticket ≠ "" →
      ∀ tok sA, getAppToken env s1.p s1.w = Res.ret (tok, none) sA →
        env.urlError (sA.p.userInfoURL ++ "?access_token=" ++ tok) = none →
        countSite Site.detail (added w (FetchAuthUser env p token w).state.w) = 1) ∧
    ((env.unmarshalProfile body).User_ticket = "" →
      ∀ pbody wD dep nm,
        httpRequest env (departmentRequest env s1.p (env.unmarshalProfile body)) s1.w =
          Res.ret (pbody, none) wD →
        env.unmarshalMap pbody = Except.ok dep →
        dep.get "errmsg" = JVal.str "ok" →
        dep.get "status" = JVal.num (F64.int 1) →
        dep.get "name" = JVal.str nm →
        FetchAuthUser env p token w =
          Res.ret (some
            { Username := (env.unmarshalProfile body).Userid,
              Id := (if (env.unmarshalProfile body).Openid ≠ "" then
                (env.unmarshalProfile body).Openid else (env.unmarshalProfile body).Userid),
              Name := nm, Email := "", AvatarURL := "", RawUser := none }, none)
            { s1 with w := wD }) := by
  obtain ⟨lraw, hlraw, hsraw⟩ := FetchRawUserInfo_sent env p token w
  rw [hraw] at hlraw
  simp only [Res.state] at hlraw
  have hz : countSite Site.detail lraw = 0 :=
    countSite_other _ _ (fun r hr => by rcases hsraw r hr with h | h <;> simp [h])
  have hplain : (env.unmarshalProfile body).User_ticket = "" →
      FetchAuthUser env p token w =
        mergeDepartment env (env.unmarshalProfile body)
          (some { Username := (env.unmarshalProfile body).Userid }) s1 := by
    intro ht
    apply FetchAuthUser_of_seed env p token w body s1 _ s1 hraw hcode herr
    unfold seedUser
    simp [ht]
  have hzero : (env.unmarshalProfile body).User_ticket = "" →
      countSite Site.detail (added w (FetchAuthUser env p token w).state.w) = 0 := by
    intro ht
    obtain ⟨ld, hld, hsd⟩ := mergeDepartment_sent env (env.unmarshalProfile body)
      (some { Username := (env.unmarshalProfile body).Userid }) s1
    rw [hplain ht, added_append w _ (lraw ++ ld) (by rw [hld, hlraw, List.append_assoc]),
      countSite_append, hz, countSite_other _ _ (fun r hr => by simp [hsd r hr])]
  have hticket : (env.unmarshalProfile body).User_ticket ≠ "" →
      ∃ lg, countSite Site.detail (added w (FetchAuthUser env p token w).state.w) =
          countSite Site.detail lg ∧ countSite Site.detail lg ≤ 1 ∧
        (∀ tok sA, getAppToken env s1.p s1.w = Res.ret (tok, none) sA →
          env.urlError (sA.p.userInfoURL ++ "?access_token=" ++ tok) = none →
          countSite Site.detail lg = 1) := by
    intro ht
    obtain ⟨ld, hld, hsd⟩ := FetchAuthUser_sent_ticket env p token w body s1 hraw hcode herr ht
    obtain ⟨lg, hlg, hle, hone⟩ :=
      getUserInfo_sent env s1.p (env.unmarshalProfile body).User_ticket s1.w
    refine ⟨lg, ?_, hle, hone⟩
    rw [added_append w _ (lraw ++ lg ++ ld)
        (by rw [hld, hlg, hlraw, List.append_assoc, List.append_assoc, List.append_assoc]),
      countSite_append, countSite_append, hz,
      countSite_other _ ld (fun r hr => by simp [hsd r hr])]
    omega
  refine ⟨?_, hzero, ?_, ?_⟩
  · by_cases ht : (env.unmarshalProfile body).User_ticket = ""
    · rw [hzero ht]
      omega
    · obtain ⟨lg, h1, h2, -⟩ := hticket ht
      omega
  · intro ht tok sA hA hurl
    obtain ⟨lg, h1, -, h3⟩ := hticket ht
    rw [h1]
    exact h3 tok sA hA hurl
  · intro ht pbody wD dep nm hD hM hok hst hnm
    rw [hplain ht, mergeDepartment_of_response env _ _ s1 pbody wD dep hD hM hok, hst]
    simp only [asFloat64, ne_eq, not_true_eq_false, if_false]
    rw [setName_eval dep _ nm rfl hnm]
    simp only
    rw [setId_eval _ _ rfl]

/-- C8 (amended) on the end-to-end scenario (one detail request) and on a raw
profile without ticket (no detail request, user seeded from the user id). -/
theorem FetchAuthUser_detail_requests_witness :
    (scenarioEnv.unmarshalProfile rawBody).User_ticket ≠ "" ∧
    countSite Site.detail (added {} (FetchAuthUser scenarioEnv demoProvider demoToken {}).state.w)
      = 1 ∧
    (plainEnv.unmarshalProfile plainBody).User_ticket = "" ∧
    countSite Site.detail (added {} (FetchAuthUser plainEnv demoProvider demoToken {}).state.w)
      = 0 ∧
    FetchAuthUser plainEnv demoProvider demoToken {} =
      Res.ret (some
        { Username := (plainEnv.unmarshalProfile plainBody).Userid,
          Id := (if (plainEnv.unmarshalProfile plainBody).Openid ≠ "" then
            (plainEnv.unmarshalProfile plainBody).Openid
            else (plainEnv.unmarshalProfile plainBody).Userid),
          Name := "张三", Email := "", AvatarURL := "", RawUser := none }, none)
        { (FetchRawUserInfo plainEnv demoProvider demoToken {}).state with
          w := (FetchAuthUser plainEnv demoProvider demoToken {}).state.w } :=
  ⟨by decide,
    (FetchAuthUser_detail_requests scenarioEnv demoProvider demoToken {} rawBody
      (FetchRawUserInfo scenarioEnv demoProvider demoToken {}).state
      (by decide) (by decide) (by decide)).2.2.1 (by decide) "TOK"
      (getAppToken scenarioEnv (FetchRawUserInfo scenarioEnv demoProvider demoToken {}).state.p
        (FetchRawUserInfo scenarioEnv demoProvider demoToken {}).state.w).state
      (by decide) (by decide),
    by decide,
    (FetchAuthUser_detail_requests plainEnv demoProvider demoToken {} plainBody
      (FetchRawUserInfo plainEnv demoProvider demoToken {}).state
      (by decide) (by decide) (by decide)).2.1 (by decide),
    (FetchAuthUser_detail_requests plainEnv demoProvider demoToken {} plainBody
      (FetchRawUserInfo plainEnv demoProvider demoToken {}).state
      (by decide) (by decide) (by decide)).2.2.2 (by decide) deptBody
      (FetchAuthUser plainEnv demoProvider demoToken {}).state.w deptMap "张三"
      (by decide) rfl (by decide) (by decide) (by decide)⟩

/-! ## The application-token cache -/

theorem since_lt_margin (now t : Int) :
    since now t < -10 * second ↔ now < t - 10 * second := by
  unfold since sat64 second
  have h63 : (2 : Int) ^ 63 = 9223372036854775808 := by norm_num
  rw [h63]
  split
  · constructor <;> intro <;> omega
  · split
    · constructor <;> intro <;> omega
    · constructor <;> intro <;> omega

theorem wrap64_of_range (x : Int) (hlo : -(2 ^ 63) ≤ x) (hhi : x < 2 ^ 63) : wrap64 x = x := by
  unfold wrap64
  have h63 : (2 : Int) ^ 63 = 9223372036854775808 := by norm_num
  have h64 : (2 : Int) ^ 64 = 18446744073709551616 := by norm_num
  rw [h63] at hlo hhi
  rw [h63, h64]
  omega

theorem cacheFresh_empty (env : Env) (p : WecomProvider) (w : World) (h : p.appToken = "") :
    cacheFresh env p w = (false, w) := by
  unfold cacheFresh
  simp [h]

theorem cacheFresh_cached (env : Env) (p : WecomProvider) (w : World) (h : p.appToken ≠ "") :
    cacheFresh env p w =
      (decide (env.now w.ticks < p.appTokenExp - 10 * second), { w with ticks := w.ticks + 1 }) := by
  unfold cacheFresh
  simp only [ne_eq, h, not_false_eq_true, if_true, Prod.mk.injEq, and_true]
  exact decide_eq_decide.mpr (since_lt_margin _ _)

/-- A call that misses the cache sends exactly the token request, whatever the
answer, provided `http.NewRequest` accepts the token URL. -/
theorem getAppToken_miss_sent (env : Env) (p : WecomProvider) (w : World)
    (hmiss : (cacheFresh env p w).1 = false)
    (hurl : env.urlError (appTokenURL p) = none) :
    added w (getAppToken env p w).state.w = [tokenRequest p] := by
  apply added_append
  unfold getAppToken
  rw [if_neg (by simp [hmiss])]
  unfold refreshAppToken newRequest
  simp only [hurl]
  have hs := httpRequest_sent env
    (some { site := Site.token, method := "GET", url := appTokenURL p, body := "", header := [] })
    (cacheFresh env p w).2
  rw [cacheFresh_sent] at hs
  simp only [Option.map_some', Option.toList_some] at hs
  cases hh : httpRequest env
      (some { site := Site.token, method := "GET", url := appTokenURL p, body := "", header := [] })
      (cacheFresh env p w).2 with
  | panic m w2 =>
    rw [hh] at hs
    simpa [Res.state, tokenRequest] using hs
  | ret r w2 =>
    obtain ⟨body, err⟩ := r
    rw [hh] at hs
    simp only [Res.state] at hs
    simp only
    repeat' split
    all_goals simpa [Res.state, tokenRequest] using hs

/-- C3 (counterexample): with no cached token and a client id that holds a line
feed, `http.NewRequest` refuses the token URL and `getAppToken` returns that
error without issuing any request. -/
theorem getAppToken_no_request_on_bad_url :
    badIdProvider.appToken = "" ∧
    getAppToken scenarioEnv badIdProvider {} =
      Res.ret ("", some "net/url: invalid control character in URL")
        { p := badIdProvider, w := {} } ∧
    added {} (getAppToken scenarioEnv badIdProvider {}).state.w = [] := by
  refine ⟨by decide, by decide, by decide⟩

/-- C3 (amended): a refresh by `getAppToken` whose response decodes to errcode 0,
a non-empty token `v` and `expires_in = e` with `e` seconds representable as a
duration stores `v` with expiry `t + e s`, `t` being the instant of the
refresh, after exactly one request to the token endpoint. Every later call at
an instant strictly before `t + e s - 10 s` returns `v`, issues no request and
leaves token and expiry unchanged. A call at or after `t + e s - 10 s`, or
with no cached token, issues exactly one request, to the token endpoint,
provided `http.NewRequest` accepts the token URL; when it refuses the URL, a
call that misses the cache returns that error and issues no request. -/
theorem getAppToken_cache (env : Env) (p : WecomProvider) (w : World) (body v : String)
    (e : Int)
    (hmiss : (cacheFresh env p w).1 = false)
    (hurl : env.urlError (appTokenURL p) = none)
    (hresp : env.respond w.sent.length (tokenRequest p) = HttpOutcome.body body)
    (hcode : (env.unmarshalToken body).Code = 0)
    (htok : (env.unmarshalToken body).App_access_token = v)
    (hv : v ≠ "")
    (hexp : (env.unmarshalToken body).Expire = e)
    (hlo : -(2 ^ 63) ≤ e * second) (hhi : e * second < 2 ^ 63) :
    getAppToken env p w =
      Res.ret (v, none)
        { p := storedProvider p v (refreshInstant env p w + e * second),
          w := { sent := w.sent ++ [tokenRequest p],
                 ticks := (cacheFresh env p w).2.ticks + 1 } } ∧
    (∀ (env2 : Env) (w2 : World),
      env2.now w2.ticks < refreshInstant env p w + e * second - 10 * second →
      getAppToken env2 (storedProvider p v (refreshInstant env p w + e * second)) w2 =
        Res.ret (v, none)
          { p := storedProvider p v (refreshInstant env p w + e * second),
            w := { w2 with ticks := w2.ticks + 1 } }) ∧
    (∀ (env2 : Env) (w2 : World),
      refreshInstant env p w + e * second - 10 * second ≤ env2.now w2.ticks →
      env2.urlError (appTokenURL (storedProvider p v (refreshInstant env p w + e * second)))
        = none →
      added w2
        (getAppToken env2 (storedProvider p v (refreshInstant env p w + e * second)) w2).state.w
        = [tokenRequest (storedProvider p v (refreshInstant env p w + e * second))]) ∧
    (∀ (env2 : Env) (q : WecomProvider) (w2 : World), q.appToken = "" →
      env2.urlError (appTokenURL q) = none →
      added w2 (getAppToken env2 q w2).state.w = [tokenRequest q]) ∧
    (∀ (env2 : Env) (q : WecomProvider) (w2 : World) (msg : String),
      (cacheFresh env2 q w2).1 = false →
      env2.urlError (appTokenURL q) = some msg →
      getAppToken env2 q w2 =
          Res.ret ("", some msg) { p := q, w := (cacheFresh env2 q w2).2 } ∧
        added w2 (getAppToken env2 q w2).state.w = []) := by
  have hstored : (storedProvider p v (refreshInstant env p w + e * second)).appToken ≠ "" := hv
  refine ⟨?_, ?_, ?_, ?_, ?_⟩
  · unfold getAppToken
    rw [if_neg (by simp [hmiss])]
    unfold refreshAppToken newRequest httpRequest
    simp only [hurl, cacheFresh_sent]
    have hr : env.respond w.sent.length (tokenRequest p) = HttpOutcome.body body := hresp
    unfold tokenRequest at hr
    simp only [hr, Option.isSome_none, Bool.false_eq_true, if_false, hcode, ne_eq,
      not_true_eq_false, htok, hexp, wrap64_of_range _ hlo hhi]
    rfl
  · intro env2 w2 ht
    unfold getAppToken
    rw [cacheFresh_cached env2 _ w2 hstored]
    have : env2.now w2.ticks <
        (storedProvider p v (refreshInstant env p w + e * second)).appTokenExp - 10 * second := ht
    simp only [this, decide_True, if_true]
    rfl
  · intro env2 w2 ht hu
    apply getAppToken_miss_sent env2 _ w2 _ hu
    rw [cacheFresh_cached env2 _ w2 hstored]
    have : ¬ env2.now w2.ticks <
        (storedProvider p v (refreshInstant env p w + e * second)).appTokenExp - 10 * second :=
      not_lt.mpr ht
    simp [this]
  · intro env2 q w2 hq hu
    apply getAppToken_miss_sent env2 q w2 _ hu
    rw [cacheFresh_empty env2 q w2 hq]
  · intro env2 q w2 msg hm hu
    have hrun : getAppToken env2 q w2 =
        Res.ret ("", some msg) { p := q, w := (cacheFresh env2 q w2).2 } := by
      unfold getAppToken
      rw [if_neg (by simp [hm])]
      unfold refreshAppToken newRequest
      simp only [hu]
    refine ⟨hrun, ?_⟩
    apply added_append
    rw [hrun]
    simp [Res.state, cacheFresh_sent]

/-- C3 (amended) on a refresh at 1000 s with expires_in 7200: a call at 8189 s
is served from the cache, a call at 8190 s requests a new token, and a client
id holding a line feed leads to no request. -/
theorem getAppToken_cache_witness :
    (scenarioEnv.unmarshalToken tokenBody).Expire = 7200 ∧
    refreshInstant scenarioEnv demoProvider {} = 1000 * second ∧
    getAppToken scenarioEnv demoProvider {} =
      Res.ret ("TOK", none)
        { p := storedProvider demoProvider "TOK"
            (refreshInstant scenarioEnv demoProvider {} + 7200 * second),
          w := { sent := [] ++ [tokenRequest demoProvider],
                 ticks := (cacheFresh scenarioEnv demoProvider {}).2.ticks + 1 } } ∧
    getAppToken scenarioEnv
        (storedProvider demoProvider "TOK"
          (refreshInstant scenarioEnv demoProvider {} + 7200 * second))
        { sent := [], ticks := 7189 } =
      Res.ret ("TOK", none)
        { p := storedProvider demoProvider "TOK"
            (refreshInstant scenarioEnv demoProvider {} + 7200 * second),
          w := { sent := [], ticks := 7189 + 1 } } ∧
    added { sent := [], ticks := 7190 }
        (getAppToken scenarioEnv
          (storedProvider demoProvider "TOK"
            (refreshInstant scenarioEnv demoProvider {} + 7200 * second))
          { sent := [], ticks := 7190 }).state.w =
      [tokenRequest (storedProvider demoProvider "TOK"
        (refreshInstant scenarioEnv demoProvider {} + 7200 * second))] ∧
    added {} (getAppToken scenarioEnv demoProvider {}).state.w = [tokenRequest demoProvider] ∧
    added {} (getAppToken scenarioEnv badIdProvider {}).state.w = [] := by
  have H := getAppToken_cache scenarioEnv demoProvider {} tokenBody "TOK" 7200
    (by decide) (by decide) (by decide) (by decide) (by decide) (by decide) (by decide)
    (by decide) (by decide)
  exact ⟨by decide, by decide, H.1,
    H.2.1 scenarioEnv { sent := [], ticks := 7189 } (by decide),
    H.2.2.1 scenarioEnv { sent := [], ticks := 7190 } (by decide) (by decide),
    H.2.2.2.1 scenarioEnv demoProvider {} (by decide) (by decide),
    (H.2.2.2.2 scenarioEnv badIdProvider {} "net/url: invalid control character in URL"
      (by decide) (by decide)).2⟩

/-! ## The authorization URL and its query parameters -/

theorem takeWhile_append_of_exists {α : Type} (f : α → Bool) (l1 l2 : List α)
    (h : ∃ a ∈ l1, f a = false) : (l1 ++ l2).takeWhile f = l1.takeWhile f := by
  induction l1 with
  | nil => simp at h
  | cons x xs ih =>
    cases hx : f x with
    | false => simp [List.takeWhile_cons, hx]
    | true =>
      have h2 : ∃ a ∈ xs, f a = false := by
        obtain ⟨a, ha, hfa⟩ := h
        rcases List.mem_cons.mp ha with rfl | ha
        · rw [hx] at hfa
          cases hfa
        · exact ⟨a, ha, hfa⟩
      simp [List.takeWhile_cons, hx, ih h2]

theorem dropWhile_append_of_exists {α : Type} (f : α → Bool) (l1 l2 : List α)
    (h : ∃ a ∈ l1, f a = false) :
    (l1 ++ l2).dropWhile f = l1.dropWhile f ++ l2 ∧ l1.dropWhile f ≠ [] := by
  induction l1 with
  | nil => simp at h
  | cons x xs ih =>
    cases hx : f x with
    | false => simp [List.dropWhile_cons, hx]
    | true =>
      have h2 : ∃ a ∈ xs, f a = false := by
        obtain ⟨a, ha, hfa⟩ := h
        rcases List.mem_cons.mp ha with rfl | ha
        · rw [hx] at hfa
          cases hfa
        · exact ⟨a, ha, hfa⟩
      simpa [List.dropWhile_cons, hx] using ih h2

theorem drop_one_append {α : Type} (l1 l2 : List α) (h : l1 ≠ []) :
    (l1 ++ l2).drop 1 = l1.drop 1 ++ l2 := by
  cases l1 with
  | nil => exact absurd rfl h
  | cons x xs => rfl

theorem splitAmp_ne_nil (l : List Char) : splitAmp l ≠ [] := by
  cases l with
  | nil => simp [splitAmp]
  | cons c cs =>
    unfold splitAmp
    split
    · simp
    · split <;> simp

theorem splitAmp_append_amp (x y : List Char) :
    splitAmp (x ++ '&' :: y) = splitAmp x ++ splitAmp y := by
  induction x with
  | nil => simp [splitAmp]
  | cons c cs ih =>
    by_cases hc : c = '&'
    · subst hc
      simp [splitAmp, ih]
    · simp only [List.cons_append, splitAmp, hc, if_false]
      have ih2 : splitAmp (cs.append ('&' :: y)) = splitAmp cs ++ splitAmp y := ih
      rw [ih2]
      cases hs : splitAmp cs with
      | nil => exact absurd hs (splitAmp_ne_nil cs)
      | cons seg segs => simp

theorem splitAmp_plain (l : List Char) (h : ∀ c ∈ l, c ≠ '&') : splitAmp l = [l] := by
  induction l with
  | nil => rfl
  | cons c cs ih =>
    have hc : c ≠ '&' := h c (List.mem_cons_self c cs)
    have ih2 := ih (fun a ha => h a (List.mem_cons_of_mem c ha))
    simp [splitAmp, hc, ih2]

theorem segKey_state (s : List Char) :
    segKey (['s', 't', 'a', 't', 'e', '='] ++ s) = ['s', 't', 'a', 't', 'e'] := by
  simp [segKey, List.takeWhile_cons]

/-- The segments of the query of a URL of the shape built by `BuildAuthURL`,
filtered by a key other than `state`, do not depend on a delimiter-free state. -/
theorem segments_state_free (pre post s : List Char) (f : List Char → Bool)
    (hq : '?' ∈ pre) (hs : ∀ c ∈ s, c ≠ '&' ∧ c ≠ '#')
    (hf : f ['s', 't', 'a', 't', 'e'] = false) :
    ((splitAmp (rawQuery (pre ++ (['&', 's', 't', 'a', 't', 'e', '='] ++ (s ++ '&' :: post))))).filter
        (fun seg => f (segKey seg))) =
      if '#' ∈ pre then (splitAmp (rawQuery pre)).filter (fun seg => f (segKey seg))
      else
        (splitAmp ((pre.dropWhile (fun c => c != '?')).drop 1)).filter
            (fun seg => f (segKey seg)) ++
          (splitAmp (post.takeWhile (fun c => c != '#'))).filter (fun seg => f (segKey seg)) := by
  by_cases hh : '#' ∈ pre
  · rw [if_pos hh]
    unfold rawQuery
    rw [takeWhile_append_of_exists _ pre _ ⟨'#', hh, by simp⟩]
  · rw [if_neg hh]
    have hpre : ∀ a ∈ pre, (a != '#') = true := by
      intro a ha
      have : a ≠ '#' := fun h => hh (h ▸ ha)
      simpa using this
    have hs1 : ∀ a ∈ s, (a != '#') = true := by
      intro a ha
      simpa using (hs a ha).2
    have hmid : ∀ a ∈ ['&', 's', 't', 'a', 't', 'e', '='], (a != '#') = true := by
      decide
    have htake : (pre ++ (['&', 's', 't', 'a', 't', 'e', '='] ++ (s ++ '&' :: post))).takeWhile
          (fun c => c != '#') =
        pre ++ (['&', 's', 't', 'a', 't', 'e', '='] ++
          (s ++ '&' :: post.takeWhile (fun c => c != '#'))) := by
      rw [List.takeWhile_append_of_pos hpre, List.takeWhile_append_of_pos hmid,
        List.takeWhile_append_of_pos hs1]
      simp [List.takeWhile_cons]
    obtain ⟨hdrop, hne⟩ := dropWhile_append_of_exists (fun c => c != '?') pre
      (['&', 's', 't', 'a', 't', 'e', '='] ++ (s ++ '&' :: post.takeWhile (fun c => c != '#')))
      ⟨'?', hq, by simp⟩
    have hraw : rawQuery (pre ++ (['&', 's', 't', 'a', 't', 'e', '='] ++ (s ++ '&' :: post))) =
        (pre.dropWhile (fun c => c != '?')).drop 1 ++
          '&' :: ((['s', 't', 'a', 't', 'e', '='] ++ s) ++
            '&' :: post.takeWhile (fun c => c != '#')) := by
      unfold rawQuery
      rw [htake, hdrop, drop_one_append _ _ hne]
      simp
    have hplain : ∀ c ∈ ['s', 't', 'a', 't', 'e', '='] ++ s, c ≠ '&' := by
      intro c hc
      rcases List.mem_append.mp hc with h | h
      · have hlit : ∀ a ∈ ['s', 't', 'a', 't', 'e', '='], a ≠ '&' := by decide
        exact hlit c h
      · exact (hs c h).1
    rw [hraw, splitAmp_append_amp, splitAmp_append_amp, splitAmp_plain _ hplain]
    simp only [List.filter_append, List.filter_cons, List.filter_nil, segKey_state, hf]
    simp

theorem BuildAuthURL_data (p : WecomProvider) (s u : String)
    (h : BuildAuthURL p s = Except.ok u) :
    ∃ post : List Char,
      (∀ s2 u2, BuildAuthURL p s2 = Except.ok u2 →
        u2.data = (p.authURL.data ++ "?response_type=code&appid=".data ++ p.clientId.data) ++
          (['&', 's', 't', 'a', 't', 'e', '='] ++ (s2.data ++ '&' :: post))) := by
  unfold BuildAuthURL at h
  cases hl : p.extra.lookup "AgentID" with
  | none =>
    refine ⟨"login_type=CorpApp&scope=snsapi_base".data, ?_⟩
    intro s2 u2 h2
    unfold BuildAuthURL at h2
    simp only [hl, Except.ok.injEq] at h2
    rw [← h2]
    simp only [String.data_append, List.append_assoc]
    rfl
  | some agentId =>
    cases ha : asString agentId with
    | none => simp [hl, ha] at h
    | some a =>
      refine ⟨"login_type=CorpApp&scope=snsapi_privateinfo&agentid=".data ++ a.data, ?_⟩
      intro s2 u2 h2
      unfold BuildAuthURL at h2
      simp only [hl, ha, Except.ok.injEq] at h2
      rw [← h2]
      simp only [String.data_append, List.append_assoc]
      rfl

/-- C4 (counterexample): under one configuration the states "a" and
"a&login_type=evil" give URLs in which the query parameter login_type has
different values (and the state parameter the same value). -/
theorem BuildAuthURL_state_injects_parameter :
    BuildAuthURL demoProvider "a" = Except.ok
      "https://login.work.weixin.qq.com/wwlogin/sso/login?response_type=code&appid=corp&state=a&login_type=CorpApp&scope=snsapi_base" ∧
    BuildAuthURL demoProvider "a&login_type=evil" = Except.ok
      "https://login.work.weixin.qq.com/wwlogin/sso/login?response_type=code&appid=corp&state=a&login_type=evil&login_type=CorpApp&scope=snsapi_base" ∧
    queryValues
      "https://login.work.weixin.qq.com/wwlogin/sso/login?response_type=code&appid=corp&state=a&login_type=CorpApp&scope=snsapi_base"
      "login_type" = ["CorpApp"] ∧
    queryValues
      "https://login.work.weixin.qq.com/wwlogin/sso/login?response_type=code&appid=corp&state=a&login_type=evil&login_type=CorpApp&scope=snsapi_base"
      "login_type" = ["evil", "CorpApp"] ∧
    queryValues
      "https://login.work.weixin.qq.com/wwlogin/sso/login?response_type=code&appid=corp&state=a&login_type=evil&login_type=CorpApp&scope=snsapi_base"
      "state" = ["a"] := by
  refine ⟨rfl, rfl, by decide, by decide, by decide⟩

/-- C4 (amended): `BuildAuthURL` depends on the provider only through the auth
URL, the client id and the extra map (not on the cached token or any other
field), and for two states free of the delimiters `&` and `#` the URLs it
returns under one configuration give the same values to every query parameter
other than state. -/
theorem BuildAuthURL_pure (p q : WecomProvider) (s1 s2 : String)
    (hauth : q.authURL = p.authURL) (hid : q.clientId = p.clientId)
    (hextra : q.extra = p.extra) (h1 : plainState s1) (h2 : plainState s2) :
    BuildAuthURL q s1 = BuildAuthURL p s1 ∧
    ∀ u1 u2, BuildAuthURL p s1 = Except.ok u1 → BuildAuthURL p s2 = Except.ok u2 →
      ∀ k, k ≠ "state" → queryValues u1 k = queryValues u2 k := by
  constructor
  · unfold BuildAuthURL
    rw [hauth, hid, hextra]
  · intro u1 u2 hu1 hu2 k hk
    obtain ⟨post, hpost⟩ := BuildAuthURL_data p s1 u1 hu1
    have d1 := hpost s1 u1 hu1
    have d2 := hpost s2 u2 hu2
    have hq : '?' ∈ p.authURL.data ++ "?response_type=code&appid=".data ++ p.clientId.data := by
      apply List.mem_append_left
      apply List.mem_append_right
      decide
    have hkd : (['s', 't', 'a', 't', 'e'] == k.data) = false := by
      apply beq_eq_false_iff_ne.mpr
      intro h
      apply hk
      apply String.ext
      rw [← h]
    have e1 := segments_state_free _ post s1.data (fun key => key == k.data) hq h1 hkd
    have e2 := segments_state_free _ post s2.data (fun key => key == k.data) hq h2 hkd
    unfold queryValues
    rw [d1, d2]
    exact congrArg _ (e1.trans e2.symm)

/-- C4 (amended) on the states "abc" and "xyz". -/
theorem BuildAuthURL_pure_witness :
    plainState "abc" ∧ plainState "xyz" ∧
    BuildAuthURL staleProvider "abc" = BuildAuthURL demoProvider "abc" ∧
    queryValues
      "https://login.work.weixin.qq.com/wwlogin/sso/login?response_type=code&appid=corp&state=abc&login_type=CorpApp&scope=snsapi_base"
      "appid" =
    queryValues
      "https://login.work.weixin.qq.com/wwlogin/sso/login?response_type=code&appid=corp&state=xyz&login_type=CorpApp&scope=snsapi_base"
      "appid" :=
  ⟨by decide, by decide,
    (BuildAuthURL_pure demoProvider staleProvider "abc" "xyz" rfl rfl rfl (by decide)
      (by decide)).1,
    (BuildAuthURL_pure demoProvider staleProvider "abc" "xyz" rfl rfl rfl (by decide)
      (by decide)).2 _ _ rfl rfl "appid" (by decide)⟩

end Wecom
